import Mathlib

/-!
# Magisk daemon: request routing and the poll multiplexer

A shallow embedding of `native/jni/core/daemon.cpp`, of the part of
`native/jni/zygisk/entry.cpp` that runs in the daemon (`connect_companion`,
`setup_files`, the bitset loop of `get_process_info`) and of `app_request` in
`native/jni/su/connect.cpp`.  Every
system call and every collaborator the daemon invokes is recorded as an effect
in a trace, in program order, so that "writes nothing", "closes the
connection" or "the acknowledgement precedes the reboot" are statements about
lists; file-scope variables are fields of an explicit state.

The enumerators of `daemon.hpp` and `flags.h` (opcodes, return codes, uids)
are not part of the sources at hand; they are the fields of `DaemonConsts`,
and the facts about them that a statement relies on are explicit hypotheses.
-/

namespace Daemon

/-! ## Constants declared outside of daemon.cpp -/

/-- The enumerators and macros that daemon.cpp uses and other headers declare. -/
structure DaemonConsts where
  UID_ROOT : Int
  UID_SHELL : Int
  SYNC_FLAG : Int
  DAEMON_CODE_MASK : Int
  DAEMON_CODE_END : Int
  START_DAEMON : Int
  CHECK_VERSION : Int
  CHECK_VERSION_CODE : Int
  GET_PATH : Int
  STOP_DAEMON : Int
  SUPERUSER : Int
  POST_FS_DATA : Int
  LATE_START : Int
  BOOT_COMPLETE : Int
  MAGISKHIDE : Int
  SQLITE_CMD : Int
  REMOVE_MODULES : Int
  ZYGISK_REQUEST : Int
  DAEMON_ERROR : Int
  ROOT_REQUIRED : Int
  MAGISK_VERSION : String
  MAGISK_VER_CODE : Int

/-- The case labels of the switch in `handle_request_async`, in source order. -/
def DaemonConsts.async_codes (k : DaemonConsts) : List Int :=
  [k.MAGISKHIDE, k.SUPERUSER, k.POST_FS_DATA, k.LATE_START, k.BOOT_COMPLETE,
   k.SQLITE_CMD, k.REMOVE_MODULES, k.ZYGISK_REQUEST]

/-- The case labels of the switch in `handle_request_sync`, in source order. -/
def DaemonConsts.sync_codes (k : DaemonConsts) : List Int :=
  [k.CHECK_VERSION, k.CHECK_VERSION_CODE, k.GET_PATH, k.START_DAEMON, k.STOP_DAEMON]

/-- Every opcode some handler switches on. -/
def DaemonConsts.known_codes (k : DaemonConsts) : List Int :=
  k.async_codes ++ k.sync_codes

/-- The range test of `handle_request`, line 213, read positively. -/
def DaemonConsts.in_range (k : DaemonConsts) (code : Int) : Prop :=
  ¬ (code < 0 ∨ Int.land code k.DAEMON_CODE_MASK ≥ k.DAEMON_CODE_END)

instance (k : DaemonConsts) (code : Int) : Decidable (k.in_range code) := by
  unfold DaemonConsts.in_range; infer_instance

/-- What the missing header is assumed to provide: the opcodes are pairwise
distinct (they are case labels), each of them passes the range test, the five
opcodes served by `handle_request_sync` carry the synchronous bit and the
eight served by `handle_request_async` do not. -/
def DaemonConsts.WF (k : DaemonConsts) : Prop :=
  k.known_codes.Nodup ∧
  (∀ c ∈ k.known_codes, k.in_range c) ∧
  (∀ c ∈ k.sync_codes, Int.land c k.SYNC_FLAG ≠ 0) ∧
  (∀ c ∈ k.async_codes, Int.land c k.SYNC_FLAG = 0)

instance (k : DaemonConsts) : Decidable k.WF := by
  unfold DaemonConsts.WF; infer_instance

/-- One assignment of the constants: synchronous bit 2^30, mask 2^30 - 1,
opcodes 0..12, return codes -1 and 1, uids 0 and 2000. -/
def sampleConsts : DaemonConsts where
  UID_ROOT := 0
  UID_SHELL := 2000
  SYNC_FLAG := 1073741824
  DAEMON_CODE_MASK := 1073741823
  DAEMON_CODE_END := 13
  START_DAEMON := 1073741824
  CHECK_VERSION := 1073741825
  CHECK_VERSION_CODE := 1073741826
  GET_PATH := 1073741827
  STOP_DAEMON := 1073741828
  SUPERUSER := 5
  POST_FS_DATA := 6
  LATE_START := 7
  BOOT_COMPLETE := 8
  MAGISKHIDE := 9
  SQLITE_CMD := 10
  REMOVE_MODULES := 11
  ZYGISK_REQUEST := 12
  DAEMON_ERROR := -1
  ROOT_REQUIRED := 1
  MAGISK_VERSION := "23.0"
  MAGISK_VER_CODE := 23000

/-! ## Data -/

/-- The peer credentials the kernel reports for a connected socket. -/
structure Ucred where
  pid : Int
  uid : Int
  gid : Int
deriving DecidableEq, Repr

/-- The two fields of `struct stat` that `verify_client` compares. -/
structure Stat where
  st_dev : Nat
  st_ino : Nat
deriving DecidableEq, Repr

/-- What the daemon does to the outside, one constructor per call site. -/
inductive Eff where
  | accept4 (listen : Int)
  | get_client_cred (client : Int)
  | read_int (fd : Int)
  | write_int (fd : Int) (v : Int)
  | write_string (fd : Int) (s : String)
  | close (fd : Int)
  | magiskhide_handler (client : Int) (cred : Option Ucred)
  | su_daemon_handler (client : Int) (cred : Ucred)
  | post_fs_data (client : Int)
  | late_start (client : Int)
  | boot_complete (client : Int)
  | exec_sql (client : Int)
  | remove_modules
  | zygisk_handler (client : Int) (cred : Ucred)
  | setup_logfile (reset : Bool)
  | exec_task (client : Int) (code : Int) (cred : Ucred)
  | reboot
  | exit (status : Int)
deriving DecidableEq, Repr

/-- A write of any kind to descriptor `fd`. -/
def Eff.writes_to (fd : Int) : Eff → Bool
  | .write_int f _ => f == fd
  | .write_string f _ => f == fd
  | _ => false

/-- The calls into the opcode handlers' collaborators (everything a handler
does apart from replying, closing and terminating). -/
def Eff.is_handler_call : Eff → Bool
  | .magiskhide_handler _ _ => true
  | .su_daemon_handler _ _ => true
  | .post_fs_data _ => true
  | .late_start _ => true
  | .boot_complete _ => true
  | .exec_sql _ => true
  | .remove_modules => true
  | .zygisk_handler _ _ => true
  | .setup_logfile _ => true
  | .reboot => true
  | .exit _ => true
  | _ => false

/-- A piece of straight-line execution: the effects issued, and whether
control came back to the caller (`exit` does not return). -/
structure Run where
  trace : List Eff
  returned : Bool
deriving DecidableEq, Repr

/-- The white space that the `%s` conversion skips and stops at. -/
def isspace (c : Char) : Bool :=
  c.toNat == 32 || (9 ≤ c.toNat && c.toNat ≤ 13)

/-- The `%s` conversion of fscanf: skip white space, then take the run of
characters up to the next white space; no conversion on an empty run. -/
def fscanf_s (content : List Char) : Option (List Char) :=
  let tok := (content.dropWhile isspace).takeWhile (fun c => !isspace c)
  if tok.isEmpty then none else some tok

/-- The C string that a char array holds: its characters before the first NUL. -/
def c_str (buf : List Char) : List Char :=
  buf.takeWhile (fun c => c.toNat != 0)

/-- Everything one connection is answered from: the descriptor `xaccept4`
returns, the credentials `get_client_cred` fills in, the kernel's answers to
the two /proc probes, the daemon's own identity, and the integer that
`read_int(client)` yields.  `check_zygote` scans a word with an unbounded `%s`
into `char buf[32]`: a word of more than 31 characters overruns the array,
which is undefined in C++, so the worlds considered are those of `word_fits`,
in which the word of every readable file fits with its terminator. -/
structure World where
  client : Int
  cred : Ucred
  stat : String → Option Stat
  open_file : String → Option (List Char)
  self_st : Stat
  code : Int
  MAGISKTMP : String
  word_fits : ∀ (path : String) (content : List Char), open_file path = some content →
    ∀ tok, fscanf_s content = some tok → tok.length ≤ 31

/-! ## Credential probes (daemon.cpp 121-138) -/

/-- The result of `sprintf(path, "/proc/%d/exe", pid)`. -/
def exe_path (pid : Int) : String := "/proc/" ++ toString pid ++ "/exe"

/-- The result of `sprintf(buf, "/proc/%d/attr/current", pid)`. -/
def attr_path (pid : Int) : String := "/proc/" ++ toString pid ++ "/attr/current"

/-- Function `verify_client`: the caller runs the same executable image as the daemon. -/
def verify_client (w : World) (pid : Int) : Bool :=
  let path := exe_path pid
  match w.stat path with
  | none => false
  | some st => !(st.st_dev != w.self_st.st_dev || st.st_ino != w.self_st.st_ino)

/-- Function `check_zygote`: `buf` first holds the path; `fscanf` with `%s`
overwrites it with the first word of /proc/pid/attr/current when there is
one; the comparison with the label reads `buf` as a C string, that is up to
its first NUL. -/
def check_zygote (w : World) (pid : Int) : Bool :=
  let buf := attr_path pid
  match w.open_file buf with
  | some fp =>
    let buf := match fscanf_s fp with
      | some tok => String.mk (c_str tok)
      | none => buf
    buf == "u:r:zygote:s0"
  | none => false

/-! ## Handlers (daemon.cpp 140-195) -/

/-- Function `handle_request_async`, the body of the unit given to `exec_task`. -/
def handle_request_async (k : DaemonConsts) (client code : Int) (cred : Ucred) : List Eff :=
  if code = k.MAGISKHIDE then [Eff.magiskhide_handler client (some cred)]
  else if code = k.SUPERUSER then [Eff.su_daemon_handler client cred]
  else if code = k.POST_FS_DATA then [Eff.post_fs_data client]
  else if code = k.LATE_START then [Eff.late_start client]
  else if code = k.BOOT_COMPLETE then [Eff.boot_complete client]
  else if code = k.SQLITE_CMD then [Eff.exec_sql client]
  else if code = k.REMOVE_MODULES then
    [Eff.remove_modules, Eff.write_int client 0, Eff.close client, Eff.reboot]
  else if code = k.ZYGISK_REQUEST then [Eff.zygisk_handler client cred]
  else [Eff.close client]

/-- Function `handle_request_sync`; the switch has no default, and `exit` ends the run. -/
def handle_request_sync (k : DaemonConsts) (MAGISKTMP : String) (client code : Int) : Run :=
  if code = k.CHECK_VERSION then
    ⟨[Eff.write_string client (k.MAGISK_VERSION ++ ":MAGISK")], true⟩
  else if code = k.CHECK_VERSION_CODE then ⟨[Eff.write_int client k.MAGISK_VER_CODE], true⟩
  else if code = k.GET_PATH then ⟨[Eff.write_string client MAGISKTMP], true⟩
  else if code = k.START_DAEMON then ⟨[Eff.setup_logfile true], true⟩
  else if code = k.STOP_DAEMON then
    ⟨[Eff.magiskhide_handler (-1) none, Eff.write_int client 0, Eff.exit 0], false⟩
  else ⟨[], true⟩

/-! ## The router (daemon.cpp 197-265) -/

/-- The permission switch of `handle_request` (lines 217-252): the rejection
code that is written before `goto done`, or `none` when control leaves the
switch through `break` or matches no label. -/
def check_permissions (k : DaemonConsts) (cred : Ucred) (is_root is_zygote : Bool)
    (code : Int) : Option Int :=
  if code = k.POST_FS_DATA ∨ code = k.LATE_START ∨ code = k.BOOT_COMPLETE ∨
      code = k.SQLITE_CMD ∨ code = k.GET_PATH then
    if !is_root then some k.ROOT_REQUIRED else none
  else if code = k.REMOVE_MODULES then
    if !is_root && cred.uid != k.UID_SHELL then some 1 else none
  else if code = k.MAGISKHIDE then
    if !is_root && !is_zygote then some k.ROOT_REQUIRED else none
  else if code = k.STOP_DAEMON then
    if !is_root then some k.ROOT_REQUIRED else none
  else if code = k.ZYGISK_REQUEST then
    if !is_zygote then some k.DAEMON_ERROR else none
  else none

/-- The three classification bits computed at lines 204-206. -/
def is_root (k : DaemonConsts) (w : World) : Bool := w.cred.uid == k.UID_ROOT

/-- Line 205. -/
def is_client (w : World) : Bool := verify_client w w.cred.pid

/-- Line 206: the zygote probe runs only when the caller is not first-party. -/
def is_zygote (w : World) : Bool := !is_client w && check_zygote w w.cred.pid

/-- The admission gate of line 209, read positively. -/
def admitted (k : DaemonConsts) (w : World) : Bool :=
  !(!is_root k w && !is_zygote w && !is_client w)

/-- Function `handle_request`, the callback of the listening socket: the effects of the
acceptor thread for one connection. -/
def handle_request (k : DaemonConsts) (w : World) (listen : Int) : List Eff :=
  let client := w.client
  let cred := w.cred
  let pre := [Eff.accept4 listen, Eff.get_client_cred client]
  let done := [Eff.close client]
  if !is_root k w && !is_zygote w && !is_client w then pre ++ done
  else
    let code := w.code
    let pre := pre ++ [Eff.read_int client]
    if code < 0 ∨ Int.land code k.DAEMON_CODE_MASK ≥ k.DAEMON_CODE_END then pre ++ done
    else
      match check_permissions k cred (is_root k w) (is_zygote w) code with
      | some rc => pre ++ [Eff.write_int client rc] ++ done
      | none =>
        if Int.land code k.SYNC_FLAG ≠ 0 then
          let r := handle_request_sync k w.MAGISKTMP client code
          if r.returned then pre ++ r.trace ++ done else pre ++ r.trace
        else
          pre ++ [Eff.exec_task client code cred]

/-- The effects of the worker thread that `exec_task` starts for a unit. -/
def run_task (k : DaemonConsts) : Eff → List Eff
  | .exec_task client code cred => handle_request_async k client code cred
  | _ => []

/-- The acceptor's effects followed by those of every unit it handed over. -/
def daemon_trace (k : DaemonConsts) (w : World) (listen : Int) : List Eff :=
  let t := handle_request k w listen
  t ++ (t.map (run_task k)).flatten

/-! ## Sample worlds -/

/-- A kernel in which no /proc probe succeeds. -/
def sampleWorld (uid code : Int) : World where
  client := 7
  cred := ⟨1234, uid, uid⟩
  stat := fun _ => none
  open_file := fun _ => none
  self_st := ⟨2049, 77⟩
  code := code
  MAGISKTMP := "/sbin"
  word_fits := by
    intro _ content h
    simp at h

/-- A kernel in which every process runs the daemon's own executable. -/
def clientWorld (uid code : Int) : World where
  client := 7
  cred := ⟨1234, uid, uid⟩
  stat := fun _ => some ⟨2049, 77⟩
  open_file := fun _ => none
  self_st := ⟨2049, 77⟩
  code := code
  MAGISKTMP := "/sbin"
  word_fits := by
    intro _ content h
    simp at h

/-- A kernel in which every process carries the zygote label. -/
def zygoteWorld (uid code : Int) : World where
  client := 7
  cred := ⟨1234, uid, uid⟩
  stat := fun _ => none
  open_file := fun _ => some "u:r:zygote:s0\n".toList
  self_st := ⟨2049, 77⟩
  code := code
  MAGISKTMP := "/sbin"
  word_fits := by
    intro _ content h tok ht
    simp only [Option.some.injEq] at h
    subst h
    have e : fscanf_s "u:r:zygote:s0\n".toList = some "u:r:zygote:s0".toList := by decide
    rw [e] at ht
    simp only [Option.some.injEq] at ht
    subst ht
    decide

/-- A kernel that reports the zygote label followed by a NUL, the form in
which SELinux returns a context, for every process; no process runs the
daemon's executable. -/
def labelNulWorld (uid code : Int) : World where
  client := 7
  cred := ⟨1234, uid, uid⟩
  stat := fun _ => none
  open_file := fun _ => some ("u:r:zygote:s0".toList ++ [Char.ofNat 0])
  self_st := ⟨2049, 77⟩
  code := code
  MAGISKTMP := "/sbin"
  word_fits := by
    intro _ content h tok ht
    simp only [Option.some.injEq] at h
    subst h
    have e : fscanf_s ("u:r:zygote:s0".toList ++ [Char.ofNat 0])
        = some ("u:r:zygote:s0".toList ++ [Char.ofNat 0]) := by decide
    rw [e] at ht
    simp only [Option.some.injEq] at ht
    subst ht
    decide

/-! ## The poll multiplexer (daemon.cpp 26-119) -/

/-- A `struct pollfd`. -/
structure Pollfd where
  fd : Int
  events : Int
  revents : Int
deriving DecidableEq, Repr

/-- A `poll_callback` is a function pointer; its address stands for it. -/
abbrev poll_callback := Nat

/-- The anonymous enum of lines 30-33. -/
def POLL_CTRL_NEW : Int := 0

/-- Second enumerator of lines 30-33. -/
def POLL_CTRL_RM : Int := 1

/-- Linux value of POLLERR in poll.h. -/
def POLLERR : Int := 8

/-- Linux value of POLLNVAL in poll.h. -/
def POLLNVAL : Int := 32

/-- One object written to, or read from, the `poll_ctrl` pipe by a single call
of `write_int`, `xwrite`, `read_int` or `xxread`. -/
inductive CtrlItem where
  | int (v : Int)
  | pfd (p : Pollfd)
  | cb (c : poll_callback)
deriving DecidableEq, Repr

/-- The globals `poll_fds`, `poll_map` and the content of the `poll_ctrl`
pipe, together with the log of the `close` calls issued by the multiplexer. -/
structure PollState where
  poll_fds : List Pollfd
  poll_map : List (Int × poll_callback)
  ctrl : List CtrlItem
  closed : List Int
deriving DecidableEq, Repr

/-- Method `std::map::try_emplace` on the key-ordered association list: an existing
key keeps its value. -/
def map_try_emplace : List (Int × poll_callback) → Int → poll_callback →
    List (Int × poll_callback)
  | [], fd, cb => [(fd, cb)]
  | (key, v) :: m, fd, cb =>
    if fd < key then (fd, cb) :: (key, v) :: m
    else if fd = key then (key, v) :: m
    else (key, v) :: map_try_emplace m fd cb

/-- Method `std::map::erase(key)`. -/
def map_erase (m : List (Int × poll_callback)) (fd : Int) : List (Int × poll_callback) :=
  m.filter (fun e => e.1 != fd)

/-- Method `std::map::find`, `none` standing for `end()`. -/
def map_find (m : List (Int × poll_callback)) (fd : Int) : Option poll_callback :=
  (m.find? (fun e => e.1 == fd)).map Prod.snd

/-- The range-for of `unregister_poll` (lines 52-62): the first entry whose fd
matches is closed when asked to, then overwritten with -1; returns the new
vector and the `close` calls issued. -/
def invalidate (fd : Int) (auto_close : Bool) : List Pollfd → List Pollfd × List Int
  | [] => ([], [])
  | p :: ps =>
    if p.fd = fd then
      ({ p with fd := -1 } :: ps, if auto_close then [p.fd] else [])
    else
      let r := invalidate fd auto_close ps
      (p :: r.1, r.2)

/-- Function `register_poll`; `main_thread` is the outcome of `gettid() == getpid()`. -/
def register_poll (main_thread : Bool) (pfd : Pollfd) (callback : poll_callback)
    (s : PollState) : PollState :=
  if main_thread then
    { s with poll_map := map_try_emplace s.poll_map pfd.fd callback,
             poll_fds := s.poll_fds ++ [pfd] }
  else
    { s with ctrl := s.ctrl ++ [CtrlItem.int POLL_CTRL_NEW, CtrlItem.pfd pfd,
                                CtrlItem.cb callback] }

/-- Function `unregister_poll`; the bool is written to the pipe as the int 0 or 1. -/
def unregister_poll (main_thread : Bool) (fd : Int) (auto_close : Bool)
    (s : PollState) : PollState :=
  if main_thread then
    let r := invalidate fd auto_close s.poll_fds
    { s with poll_map := map_erase s.poll_map fd, poll_fds := r.1,
             closed := s.closed ++ r.2 }
  else
    { s with ctrl := s.ctrl ++ [CtrlItem.int POLL_CTRL_RM, CtrlItem.int fd,
                                CtrlItem.int (if auto_close then 1 else 0)] }

/-- Function `poll_ctrl_handler`, which runs as a callback on the owning thread and so
takes the direct branch of `register_poll` / `unregister_poll`.  `none`: the
pipe does not hold the objects the handler reads (the reads then leave the
locals uninitialised, which is not modelled). -/
def poll_ctrl_handler (s : PollState) : Option PollState :=
  match s.ctrl with
  | CtrlItem.int code :: rest =>
    if code = POLL_CTRL_NEW then
      match rest with
      | CtrlItem.pfd new_fd :: CtrlItem.cb cb :: rest2 =>
        some (register_poll true new_fd cb { s with ctrl := rest2 })
      | _ => none
    else if code = POLL_CTRL_RM then
      match rest with
      | CtrlItem.int fd :: CtrlItem.int auto_close :: rest2 =>
        some (unregister_poll true fd (auto_close != 0) { s with ctrl := rest2 })
      | _ => none
    else some { s with ctrl := rest }
  | _ => none

/-- The test of line 107. -/
def is_error (revents : Int) : Bool :=
  Int.land revents POLLERR != 0 || Int.land revents POLLNVAL != 0

/-- One turn of the for loop of `poll_loop` (lines 105-116) at index `i`:
the next index and the next state.  `run cb i` is what callback `cb` does to
the globals when it is handed the address of entry `i`. -/
def poll_loop_step (run : poll_callback → Nat → PollState → PollState) (i : Nat)
    (s : PollState) : Nat × PollState :=
  match s.poll_fds.get? i with
  | none => (i, s)
  | some pfd =>
    if pfd.revents ≠ 0 then
      if is_error pfd.revents then
        (i, { s with poll_map := map_erase s.poll_map pfd.fd,
                     poll_fds := s.poll_fds.eraseIdx i })
      else
        match map_find s.poll_map pfd.fd with
        | some cb => (i + 1, run cb i s)
        | none => (i + 1, s)
    else (i + 1, s)

/-- The for loop of lines 104-117 from index `i`, at most `fuel` turns;
`none` when the fuel runs out before `i` reaches the size. -/
def poll_pass (run : poll_callback → Nat → PollState → PollState) :
    Nat → Nat → PollState → Option PollState
  | 0, i, s => if i < s.poll_fds.length then none else some s
  | fuel + 1, i, s =>
    if i < s.poll_fds.length then
      let r := poll_loop_step run i s
      poll_pass run fuel r.1 r.2
    else some s

/-- Callback `handle_request` as `poll_loop` invokes it: the listening socket is the fd
of the entry it is handed, and neither `poll_fds` nor `poll_map` is touched. -/
def handle_request_cb (k : DaemonConsts) (w : World) (i : Nat) (s : PollState) :
    PollState × List Eff :=
  match s.poll_fds.get? i with
  | some pfd => (s, handle_request k w pfd.fd)
  | none => (s, [])

/-- The two effects after which the daemon no longer serves: process exit and
device reboot. -/
def Eff.is_terminal : Eff → Bool
  | .reboot => true
  | .exit _ => true
  | _ => false

/-- Scan of a trace: no terminal effect occurs before the first
`write_int(client, 0)`. -/
def ack_first (client : Int) : List Eff → Bool
  | [] => true
  | e :: es => e == Eff.write_int client 0 || (!e.is_terminal && ack_first client es)

/-- A multiplexer watching the control pipe (fd 4) and the main socket (fd 3). -/
def samplePoll : PollState where
  poll_fds := [⟨4, 1, 0⟩, ⟨3, 1, 0⟩, ⟨9, 1, 8⟩]
  poll_map := [(3, 200), (4, 100), (9, 300)]
  ctrl := []
  closed := []

/-! ## One turn of the outer loop of `poll_loop` (daemon.cpp 99-118) -/

/-- The entries that the for loop of lines 104-117 examines, in order: the
entry at the current index of each turn, the turns being those of
`poll_loop_step`. -/
def poll_pass_visits (run : poll_callback → Nat → PollState → PollState) :
    Nat → Nat → PollState → List Pollfd
  | 0, _, _ => []
  | fuel + 1, i, s =>
    match s.poll_fds.get? i with
    | none => []
    | some pfd =>
      let r := poll_loop_step run i s
      pfd :: poll_pass_visits run fuel r.1 r.2

/-- What poll(2) does to the vector: an entry with a negative fd is ignored
and gets revents 0, every other entry gets the revents the kernel reports. -/
def sys_poll (kernel : Pollfd → Int) (fds : List Pollfd) : List Pollfd :=
  fds.map (fun p => { p with revents := if p.fd < 0 then 0 else kernel p })

/-- One turn of the `for (;;)` of `poll_loop`: the call of poll (`none` when
it fails), the test of its return value (the number of entries with non-zero
revents), then the pass over the vector. -/
def poll_iteration (run : poll_callback → Nat → PollState → PollState)
    (kernel : Option (Pollfd → Int)) (fuel : Nat) (s : PollState) : Option PollState :=
  match kernel with
  | none => some s
  | some f =>
    let s1 := { s with poll_fds := sys_poll f s.poll_fds }
    if s1.poll_fds.countP (fun p => p.revents != 0) ≤ 0 then some s1
    else poll_pass run fuel 0 s1

/-- A multiplexer watching the control pipe, the main socket and fd 9, none
of them ready. -/
def idlePoll : PollState where
  poll_fds := [⟨4, 1, 0⟩, ⟨3, 1, 0⟩, ⟨9, 1, 0⟩]
  poll_map := [(3, 200), (4, 100), (9, 300)]
  ctrl := []
  closed := []

/-! ## The companion broker (zygisk/entry.cpp 187-306) -/

/-- A `timespec`. -/
structure Timespec where
  tv_sec : Int
  tv_nsec : Int
deriving DecidableEq, Repr

/-- The two descriptors of a `module_info` that `get_module_fds` reads. -/
structure ModuleInfo where
  z32 : Int
  z64 : Int
deriving DecidableEq, Repr

/-- What the broker does to the outside, one constructor per kind of call.
`fork_exec` stands for the child of `fork_dont_care`, which clears the
close-on-exec flag of its end of the pair and executes the companion. -/
inductive ZEff where
  | poll (fd : Int) (timeout : Int)
  | close (fd : Int)
  | socketpair (fd0 : Int) (fd1 : Int)
  | fork_exec (exe : String) (arg : String)
  | send_fds (sock : Int) (fds : List Int)
  | read_int (fd : Int)
  | send_fd (sock : Int) (fd : Int)
  | write_int (fd : Int) (v : Int)
  | write_string (fd : Int) (s : String)
  | cp_afc (src : String) (dst : String)
deriving DecidableEq, Repr

/-- What a call of the broker is answered from: globals set elsewhere, macros
and helpers of other files, and the answers of the system calls it makes. -/
structure ZygiskWorld where
  MAGISKTMP : String
  ZYGISKBIN : String
  LP64 : Bool
  module_list : List ModuleInfo
  app_process_32 : Int
  app_process_64 : Int
  readlink : String → Option String
  basename : String → String
  str_ends : String → String → Bool
  now : Timespec
  probe : Int → Int
  socketpair : Int × Int
  ack : Int

/-- The file-scope variables of lines 210 and 251-252; index 0 of the two
arrays is the 32-bit ABI, index 1 the 64-bit one.  Counters and seconds are
mathematical integers. -/
structure ZygiskState where
  zygiskd_sockets : Int × Int
  last_zygote_start : Timespec
  zygote_start_counts : Int × Int
deriving DecidableEq, Repr

/-- Read of a two-element array at index `is_64_bit`. -/
def at_abi (a : Int × Int) (is_64_bit : Bool) : Int := if is_64_bit then a.2 else a.1

/-- Write of a two-element array at index `is_64_bit`. -/
def set_abi (a : Int × Int) (is_64_bit : Bool) (v : Int) : Int × Int :=
  if is_64_bit then (a.1, v) else (v, a.2)

/-- Value of STDOUT_FILENO in unistd.h. -/
def STDOUT_FILENO : Int := 1

/-- Function `get_module_fds` (lines 187-202); the 64-bit branch is compiled
only when `__LP64__` is defined. -/
def get_module_fds (w : ZygiskWorld) (is_64_bit : Bool) : List Int :=
  if is_64_bit then
    if w.LP64 then
      w.module_list.map (fun info => if info.z64 < 0 then STDOUT_FILENO else info.z64)
    else []
  else
    w.module_list.map (fun info => if info.z32 < 0 then STDOUT_FILENO else info.z32)

/-- Function `get_exe` (lines 204-207): whether the link could be read, and
the content of `buf` afterwards. -/
def get_exe (w : ZygiskWorld) (pid : Int) : Bool × String :=
  match w.readlink (exe_path pid) with
  | some target => (decide (target.length > 0), target)
  | none => (false, exe_path pid)

/-- Function `connect_companion` (lines 213-249), as run by the daemon (the
parent of the fork); the mutex is not modelled. -/
def connect_companion (w : ZygiskWorld) (client : Int) (is_64_bit : Bool)
    (st : ZygiskState) : ZygiskState × List ZEff :=
  let cached := at_abi st.zygiskd_sockets is_64_bit
  let r1 : ZygiskState × List ZEff :=
    if cached ≥ 0 then
      if w.probe cached ≠ 0 then
        ({ st with zygiskd_sockets := set_abi st.zygiskd_sockets is_64_bit (-1) },
         [ZEff.poll cached 0, ZEff.close cached])
      else (st, [ZEff.poll cached 0])
    else (st, [])
  let st1 := r1.1
  if at_abi st1.zygiskd_sockets is_64_bit < 0 then
    let fds := w.socketpair
    let st2 := { st1 with zygiskd_sockets := set_abi st1.zygiskd_sockets is_64_bit fds.1 }
    let sock := at_abi st2.zygiskd_sockets is_64_bit
    let exe := w.MAGISKTMP ++ "/magisk" ++ (if is_64_bit then "64" else "32")
    let tr := r1.2 ++ [ZEff.socketpair fds.1 fds.2, ZEff.fork_exec exe (toString fds.2),
      ZEff.close fds.2, ZEff.send_fds sock (get_module_fds w is_64_bit), ZEff.read_int sock]
    if w.ack ≠ 0 then (st2, tr)
    else (st2, tr ++ [ZEff.send_fd sock client])
  else
    (st1, r1.2 ++ [ZEff.send_fd (at_abi st1.zygiskd_sockets is_64_bit) client])

/-- The macro `zygote_started` of line 254. -/
def zygote_started (st : ZygiskState) : Int :=
  st.zygote_start_counts.1 + st.zygote_start_counts.2

/-- Function `setup_files` (lines 257-306); `pid` is `cred->pid`, and `w.now`
is what `clock_gettime(CLOCK_MONOTONIC)` yields during the call. -/
def setup_files (w : ZygiskWorld) (client pid : Int) (st : ZygiskState) :
    ZygiskState × List ZEff :=
  let exe := get_exe w pid
  if !exe.1 then (st, [ZEff.write_int client 1])
  else
    let buf := exe.2
    let is_64_bit := w.str_ends buf "64"
    let st1 := if zygote_started st = 0 then { st with last_zygote_start := w.now } else st
    let started_before : Bool := at_abi st1.zygote_start_counts is_64_bit != 0
    let st2 := if started_before then { st1 with zygiskd_sockets := (-1, -1) } else st1
    let tr2 := if started_before then
      [ZEff.close st1.zygiskd_sockets.1, ZEff.close st1.zygiskd_sockets.2] else []
    let counts := set_abi st2.zygote_start_counts is_64_bit
      (at_abi st2.zygote_start_counts is_64_bit + 1)
    let st3 := { st2 with zygote_start_counts := counts }
    let path := w.MAGISKTMP ++ "/" ++ w.ZYGISKBIN ++ "/zygisk." ++ w.basename buf
    let serve := [ZEff.write_int client 0,
      ZEff.send_fd client (if is_64_bit then w.app_process_64 else w.app_process_32),
      ZEff.cp_afc buf (path ++ ".1.so"), ZEff.cp_afc buf (path ++ ".2.so"),
      ZEff.write_string client w.MAGISKTMP]
    if at_abi st3.zygote_start_counts is_64_bit ≥ 5 then
      let ts := w.now
      if ts.tv_sec - st3.last_zygote_start.tv_sec > 60 then
        ({ st3 with last_zygote_start := ts, zygote_start_counts := (1, 1) }, tr2 ++ serve)
      else
        ({ st3 with zygote_start_counts := (999, 999) }, tr2 ++ [ZEff.write_int client 1])
    else (st3, tr2 ++ serve)

/-- A run of `setup_files` calls, each with its own world (clock reading,
caller): the final state and the effects of each call. -/
def setup_files_calls : List (ZygiskWorld × Int × Int) → ZygiskState →
    ZygiskState × List (List ZEff)
  | [], st => (st, [])
  | (w, client, pid) :: rest, st =>
    let r := setup_files w client pid st
    let q := setup_files_calls rest r.1
    (q.1, r.2 :: q.2)

/-- The state at daemon start: no cached socket, counters 0. -/
def initZygisk : ZygiskState where
  zygiskd_sockets := (-1, -1)
  last_zygote_start := ⟨0, 0⟩
  zygote_start_counts := (0, 0)

/-- A world at monotonic time `sec`.`nsec` in which every caller runs the
64-bit or the 32-bit app_process. -/
def zworld (is_64_bit : Bool) (sec nsec : Int) : ZygiskWorld where
  MAGISKTMP := "/sbin"
  ZYGISKBIN := ".magisk/zygisk"
  LP64 := true
  module_list := [⟨20, 21⟩, ⟨-1, 23⟩]
  app_process_32 := 10
  app_process_64 := 11
  readlink := fun _ =>
    some (if is_64_bit then "/system/bin/app_process64" else "/system/bin/app_process32")
  basename := fun _ => if is_64_bit then "app_process64" else "app_process32"
  str_ends := fun a b => b.toList.isSuffixOf a.toList
  now := ⟨sec, nsec⟩
  probe := fun _ => 0
  socketpair := (30, 31)
  ack := 0

/-- A world at monotonic time `sec` in which the link /proc/pid/exe of no
caller can be read. -/
def unresolvedWorld (sec : Int) : ZygiskWorld :=
  let w := zworld true sec 0
  { w with readlink := fun _ => none }

/-- A world for `connect_companion`: what the probe reports for every fd and
what the new companion acknowledges. -/
def cworld (revents ack : Int) : ZygiskWorld :=
  let w := zworld true 0 0
  { w with probe := fun _ => revents, ack := ack }

/-! ## The module bitset loop of `get_process_info` (zygisk/entry.cpp 367-386) -/

/-- Why an evaluation of the loop yields no list of modules: the bit index
given to `bits[j]` is not below the width of the slot, for which
`std::bitset::operator[]` is undefined; or the fuel of the model ran out. -/
inductive LoopStop where
  | bit_out_of_range (i : Nat) (j : Nat) (id : Nat)
  | out_of_fuel
deriving DecidableEq, Repr

/-- The outcome of the loop: the module ids whose `unloaded` marker is
requested, in order, or the reason there is none. -/
inductive LoopResult (α : Type) where
  | ok (val : α)
  | stop (why : LoopStop)
deriving DecidableEq, Repr

/-- The read `bits[j]` of a `slot_bits` built from the slot value `l`;
`slot_size` is the width of `dynamic_bitset::slot_type` in bits. -/
def slot_bit (slot_size : Nat) (l : Nat) (j : Nat) : Option Bool :=
  if j < slot_size then some (l.testBit j) else none

/-- The inner for loop (lines 374-385) on slot `i` of value `l`, entered with
bit index `j` and module index `id`; `size` is `module_list->size()`.  Yields
the module index after the loop and the ids for which the body of
`if (!bits[j])` was run. -/
def inner_loop (slot_size size i l : Nat) : Nat → Nat → Nat → LoopResult (Nat × List Nat)
  | 0, _, id =>
    if id < size then LoopResult.stop LoopStop.out_of_fuel else LoopResult.ok (id, [])
  | fuel + 1, j, id =>
    if id < size then
      match slot_bit slot_size l j with
      | none => LoopResult.stop (LoopStop.bit_out_of_range i j id)
      | some bit =>
        match inner_loop slot_size size i l fuel (j + 1) (id + 1) with
        | LoopResult.stop why => LoopResult.stop why
        | LoopResult.ok r => LoopResult.ok (r.1, if !bit then id :: r.2 else r.2)
    else LoopResult.ok (id, [])

/-- The outer for loop (lines 370-386) from slot `i` with module index `id`;
`slots` is the count read from the client and `read i` the value of `l` after
the read of slot `i` (0 when the read fails).  The inner loop gets `size`
turns, which is never too few. -/
def slots_loop (slot_size size : Nat) (slots : Int) (read : Nat → Nat) :
    Nat → Nat → Nat → LoopResult (List Nat)
  | 0, i, _ =>
    if (i : Int) < slots then LoopResult.stop LoopStop.out_of_fuel else LoopResult.ok []
  | fuel + 1, i, id =>
    if (i : Int) < slots then
      match inner_loop slot_size size i (read i) size 0 id with
      | LoopResult.stop why => LoopResult.stop why
      | LoopResult.ok r =>
        match slots_loop slot_size size slots read fuel (i + 1) r.1 with
        | LoopResult.stop why => LoopResult.stop why
        | LoopResult.ok rest => LoopResult.ok (r.2 ++ rest)
    else LoopResult.ok []

/-- Lines 368-386 of `get_process_info`: the modules marked unloaded for the
bitset the client sends. -/
def get_process_info_slots (slot_size size : Nat) (slots : Int) (read : Nat → Nat) :
    LoopResult (List Nat) :=
  slots_loop slot_size size slots read slots.toNat 0 0

/-! ## The consent channel (su/connect.cpp 192-221) -/

/-- An `Extra` of the request sent to the manager app. -/
inductive Extra where
  | str (key : String) (val : String)
  | int (key : String) (val : Int)
deriving DecidableEq, Repr

/-- What `app_request` does to the outside. -/
inductive SuEff where
  | mkfifo (path : String) (mode : Nat)
  | chown (path : String) (uid : Int) (gid : Int)
  | setfilecon (path : String) (con : String)
  | exec_cmd (action : String) (extras : List Extra) (provider : Bool)
  | xopen (path : String)
  | xpoll (fd : Int) (events : Int) (timeout : Int)
  | close (fd : Int)
  | unlink (path : String)
deriving DecidableEq, Repr

/-- The fields of `su_info` that `app_request` reads. -/
structure SuInfo where
  mgr_uid : Int
  mgr_gid : Int
  eval_uid : Int

/-- What a call of `app_request` is answered from: the random name, two
constants of other headers, and the results of `xopen` and `xpoll`. -/
structure SuWorld where
  rand : String
  SEPOL_FILE_TYPE : String
  POLL_IN : Int
  xopen : Int
  xpoll : Int

/-- Function `app_request`: the value returned and the effects, in order. -/
def app_request (w : SuWorld) (info : SuInfo) : Int × List SuEff :=
  let fifo := "/dev/socket/" ++ w.rand
  let fd := w.xopen
  let pre := [SuEff.mkfifo fifo 0o600, SuEff.chown fifo info.mgr_uid info.mgr_gid,
    SuEff.setfilecon fifo ("u:object_r:" ++ w.SEPOL_FILE_TYPE ++ ":s0"),
    SuEff.exec_cmd "request" [Extra.str "fifo" fifo, Extra.int "uid" info.eval_uid] false,
    SuEff.xopen fifo, SuEff.xpoll fd w.POLL_IN (70 * 1000)]
  if w.xpoll ≤ 0 then (-1, pre ++ [SuEff.close fd, SuEff.unlink fifo])
  else (fd, pre ++ [SuEff.unlink fifo])

/-- A consent request whose fifo opens as fd 12. -/
def suWorld (xpoll : Int) : SuWorld where
  rand := "0123456789abcdef0123456789abcde"
  SEPOL_FILE_TYPE := "magisk_file"
  POLL_IN := 1
  xopen := 12
  xpoll := xpoll

/-! ## Shape of `handle_request` on each of its paths -/

/-- An admitted caller does not take the `goto done` of line 210. -/
theorem gate_of_admitted (k : DaemonConsts) (w : World) (h : admitted k w = true) :
    (!is_root k w && !is_zygote w && !is_client w) = false := by
  unfold admitted at h
  revert h
  cases is_root k w <;> cases is_zygote w <;> cases is_client w <;> simp

/-- Path 1: the caller fails the gate of line 209. -/
theorem handle_request_of_not_admitted (k : DaemonConsts) (w : World) (listen : Int)
    (h : admitted k w = false) :
    handle_request k w listen
      = [Eff.accept4 listen, Eff.get_client_cred w.client, Eff.close w.client] := by
  have hg : (!is_root k w && !is_zygote w && !is_client w) = true := by
    unfold admitted at h
    revert h
    cases is_root k w <;> cases is_zygote w <;> cases is_client w <;> simp
  simp [handle_request, hg]

/-- Path 2: the opcode fails the range test of line 213. -/
theorem handle_request_of_bad_code (k : DaemonConsts) (w : World) (listen : Int)
    (h : admitted k w = true) (hc : ¬ k.in_range w.code) :
    handle_request k w listen
      = [Eff.accept4 listen, Eff.get_client_cred w.client, Eff.read_int w.client,
         Eff.close w.client] := by
  have hg := gate_of_admitted k w h
  unfold DaemonConsts.in_range at hc
  rw [not_not] at hc
  simp only [handle_request, hg, if_pos hc]
  simp

/-- Path 3: the permission switch writes a rejection code. -/
theorem handle_request_of_reject (k : DaemonConsts) (w : World) (listen : Int) (rc : Int)
    (h : admitted k w = true) (hc : k.in_range w.code)
    (hp : check_permissions k w.cred (is_root k w) (is_zygote w) w.code = some rc) :
    handle_request k w listen
      = [Eff.accept4 listen, Eff.get_client_cred w.client, Eff.read_int w.client,
         Eff.write_int w.client rc, Eff.close w.client] := by
  have hg := gate_of_admitted k w h
  unfold DaemonConsts.in_range at hc
  simp only [handle_request, hg, if_neg hc, hp]
  simp

/-- Path 4: a synchronous opcode is served inline (lines 254-257). -/
theorem handle_request_of_sync (k : DaemonConsts) (w : World) (listen : Int)
    (h : admitted k w = true) (hc : k.in_range w.code)
    (hp : check_permissions k w.cred (is_root k w) (is_zygote w) w.code = none)
    (hs : Int.land w.code k.SYNC_FLAG ≠ 0) :
    handle_request k w listen
      = [Eff.accept4 listen, Eff.get_client_cred w.client, Eff.read_int w.client]
        ++ (handle_request_sync k w.MAGISKTMP w.client w.code).trace
        ++ (if (handle_request_sync k w.MAGISKTMP w.client w.code).returned
            then [Eff.close w.client] else []) := by
  have hg := gate_of_admitted k w h
  unfold DaemonConsts.in_range at hc
  simp only [handle_request, hg, if_neg hc, hp, if_pos hs]
  cases (handle_request_sync k w.MAGISKTMP w.client w.code).returned <;> simp

/-- Path 5: any other opcode is handed to `exec_task` (lines 259-261). -/
theorem handle_request_of_async (k : DaemonConsts) (w : World) (listen : Int)
    (h : admitted k w = true) (hc : k.in_range w.code)
    (hp : check_permissions k w.cred (is_root k w) (is_zygote w) w.code = none)
    (hs : Int.land w.code k.SYNC_FLAG = 0) :
    handle_request k w listen
      = [Eff.accept4 listen, Eff.get_client_cred w.client, Eff.read_int w.client,
         Eff.exec_task w.client w.code w.cred] := by
  have hg := gate_of_admitted k w h
  unfold DaemonConsts.in_range at hc
  simp only [handle_request, hg, if_neg hc, hp]
  simp [hs]

/-- Membership in the list of known opcodes, unfolded. -/
theorem mem_known_codes (k : DaemonConsts) (c : Int) :
    c ∈ k.known_codes ↔
      c = k.MAGISKHIDE ∨ c = k.SUPERUSER ∨ c = k.POST_FS_DATA ∨ c = k.LATE_START ∨
      c = k.BOOT_COMPLETE ∨ c = k.SQLITE_CMD ∨ c = k.REMOVE_MODULES ∨
      c = k.ZYGISK_REQUEST ∨ c = k.CHECK_VERSION ∨ c = k.CHECK_VERSION_CODE ∨
      c = k.GET_PATH ∨ c = k.START_DAEMON ∨ c = k.STOP_DAEMON := by
  simp [DaemonConsts.known_codes, DaemonConsts.async_codes, DaemonConsts.sync_codes]

/-- The permission switch on the five opcodes of its first group. -/
theorem check_permissions_root_group (k : DaemonConsts) (cred : Ucred) (r z : Bool)
    (code : Int)
    (h : code = k.POST_FS_DATA ∨ code = k.LATE_START ∨ code = k.BOOT_COMPLETE ∨
      code = k.SQLITE_CMD ∨ code = k.GET_PATH) :
    check_permissions k cred r z code = if !r then some k.ROOT_REQUIRED else none := by
  unfold check_permissions
  rw [if_pos h]

/-- Two known opcodes at different positions of `known_codes` differ. -/
theorem known_getD_ne (k : DaemonConsts) (hk : k.WF) (i j : Nat) (hi : i < 13)
    (hj : j < 13) (h : i ≠ j) : k.known_codes.getD i 0 ≠ k.known_codes.getD j 0 := by
  have hl : k.known_codes.length = 13 := rfl
  rw [List.getD_eq_getElem _ _ (by omega), List.getD_eq_getElem _ _ (by omega)]
  intro e
  exact h ((hk.1.getElem_inj_iff).1 e)

/-- The permission switch on the four opcodes that have a case of their own. -/
theorem check_permissions_single (k : DaemonConsts) (hk : k.WF) (cred : Ucred) (r z : Bool) :
    check_permissions k cred r z k.REMOVE_MODULES
      = (if !r && cred.uid != k.UID_SHELL then some 1 else none) ∧
    check_permissions k cred r z k.MAGISKHIDE
      = (if !r && !z then some k.ROOT_REQUIRED else none) ∧
    check_permissions k cred r z k.STOP_DAEMON
      = (if !r then some k.ROOT_REQUIRED else none) ∧
    check_permissions k cred r z k.ZYGISK_REQUEST
      = (if !z then some k.DAEMON_ERROR else none) := by
  have a1 : k.REMOVE_MODULES ≠ k.POST_FS_DATA :=
    known_getD_ne k hk 6 2 (by decide) (by decide) (by decide)
  have a2 : k.REMOVE_MODULES ≠ k.LATE_START :=
    known_getD_ne k hk 6 3 (by decide) (by decide) (by decide)
  have a3 : k.REMOVE_MODULES ≠ k.BOOT_COMPLETE :=
    known_getD_ne k hk 6 4 (by decide) (by decide) (by decide)
  have a4 : k.REMOVE_MODULES ≠ k.SQLITE_CMD :=
    known_getD_ne k hk 6 5 (by decide) (by decide) (by decide)
  have a5 : k.REMOVE_MODULES ≠ k.GET_PATH :=
    known_getD_ne k hk 6 10 (by decide) (by decide) (by decide)
  have b1 : k.MAGISKHIDE ≠ k.POST_FS_DATA :=
    known_getD_ne k hk 0 2 (by decide) (by decide) (by decide)
  have b2 : k.MAGISKHIDE ≠ k.LATE_START :=
    known_getD_ne k hk 0 3 (by decide) (by decide) (by decide)
  have b3 : k.MAGISKHIDE ≠ k.BOOT_COMPLETE :=
    known_getD_ne k hk 0 4 (by decide) (by decide) (by decide)
  have b4 : k.MAGISKHIDE ≠ k.SQLITE_CMD :=
    known_getD_ne k hk 0 5 (by decide) (by decide) (by decide)
  have b5 : k.MAGISKHIDE ≠ k.GET_PATH :=
    known_getD_ne k hk 0 10 (by decide) (by decide) (by decide)
  have b6 : k.MAGISKHIDE ≠ k.REMOVE_MODULES :=
    known_getD_ne k hk 0 6 (by decide) (by decide) (by decide)
  have c1 : k.STOP_DAEMON ≠ k.POST_FS_DATA :=
    known_getD_ne k hk 12 2 (by decide) (by decide) (by decide)
  have c2 : k.STOP_DAEMON ≠ k.LATE_START :=
    known_getD_ne k hk 12 3 (by decide) (by decide) (by decide)
  have c3 : k.STOP_DAEMON ≠ k.BOOT_COMPLETE :=
    known_getD_ne k hk 12 4 (by decide) (by decide) (by decide)
  have c4 : k.STOP_DAEMON ≠ k.SQLITE_CMD :=
    known_getD_ne k hk 12 5 (by decide) (by decide) (by decide)
  have c5 : k.STOP_DAEMON ≠ k.GET_PATH :=
    known_getD_ne k hk 12 10 (by decide) (by decide) (by decide)
  have c6 : k.STOP_DAEMON ≠ k.REMOVE_MODULES :=
    known_getD_ne k hk 12 6 (by decide) (by decide) (by decide)
  have c7 : k.STOP_DAEMON ≠ k.MAGISKHIDE :=
    known_getD_ne k hk 12 0 (by decide) (by decide) (by decide)
  have d1 : k.ZYGISK_REQUEST ≠ k.POST_FS_DATA :=
    known_getD_ne k hk 7 2 (by decide) (by decide) (by decide)
  have d2 : k.ZYGISK_REQUEST ≠ k.LATE_START :=
    known_getD_ne k hk 7 3 (by decide) (by decide) (by decide)
  have d3 : k.ZYGISK_REQUEST ≠ k.BOOT_COMPLETE :=
    known_getD_ne k hk 7 4 (by decide) (by decide) (by decide)
  have d4 : k.ZYGISK_REQUEST ≠ k.SQLITE_CMD :=
    known_getD_ne k hk 7 5 (by decide) (by decide) (by decide)
  have d5 : k.ZYGISK_REQUEST ≠ k.GET_PATH :=
    known_getD_ne k hk 7 10 (by decide) (by decide) (by decide)
  have d6 : k.ZYGISK_REQUEST ≠ k.REMOVE_MODULES :=
    known_getD_ne k hk 7 6 (by decide) (by decide) (by decide)
  have d7 : k.ZYGISK_REQUEST ≠ k.MAGISKHIDE :=
    known_getD_ne k hk 7 0 (by decide) (by decide) (by decide)
  have d8 : k.ZYGISK_REQUEST ≠ k.STOP_DAEMON :=
    known_getD_ne k hk 7 12 (by decide) (by decide) (by decide)
  unfold check_permissions
  refine ⟨?_, ?_, ?_, ?_⟩
  · rw [if_neg (by simp only [not_or]; exact ⟨a1, a2, a3, a4, a5⟩), if_pos rfl]
  · rw [if_neg (by simp only [not_or]; exact ⟨b1, b2, b3, b4, b5⟩), if_neg b6, if_pos rfl]
  · rw [if_neg (by simp only [not_or]; exact ⟨c1, c2, c3, c4, c5⟩), if_neg c6, if_neg c7,
      if_pos rfl]
  · rw [if_neg (by simp only [not_or]; exact ⟨d1, d2, d3, d4, d5⟩), if_neg d6, if_neg d7,
      if_neg d8, if_pos rfl]

/-! ## Command router -/

/-- C1: an admitted caller that sends a known opcode without meeting its
permission requirement gets exactly one rejection integer and a close; the
whole trace of `handle_request` is accept, credentials, opcode read, that one
write, close, so no handler runs and no unit is handed to `exec_task`. -/
theorem handle_request_rejects (k : DaemonConsts) (w : World) (listen : Int)
    (hk : k.WF) (hadm : admitted k w = true) :
    (w.code ∈ [k.POST_FS_DATA, k.LATE_START, k.BOOT_COMPLETE, k.SQLITE_CMD, k.GET_PATH,
        k.STOP_DAEMON] → w.cred.uid ≠ k.UID_ROOT →
      handle_request k w listen
        = [Eff.accept4 listen, Eff.get_client_cred w.client, Eff.read_int w.client,
           Eff.write_int w.client k.ROOT_REQUIRED, Eff.close w.client]) ∧
    (w.code = k.REMOVE_MODULES → w.cred.uid ≠ k.UID_ROOT → w.cred.uid ≠ k.UID_SHELL →
      handle_request k w listen
        = [Eff.accept4 listen, Eff.get_client_cred w.client, Eff.read_int w.client,
           Eff.write_int w.client 1, Eff.close w.client]) ∧
    (w.code = k.MAGISKHIDE → w.cred.uid ≠ k.UID_ROOT → is_zygote w = false →
      handle_request k w listen
        = [Eff.accept4 listen, Eff.get_client_cred w.client, Eff.read_int w.client,
           Eff.write_int w.client k.ROOT_REQUIRED, Eff.close w.client]) ∧
    (w.code = k.ZYGISK_REQUEST → is_zygote w = false →
      handle_request k w listen
        = [Eff.accept4 listen, Eff.get_client_cred w.client, Eff.read_int w.client,
           Eff.write_int w.client k.DAEMON_ERROR, Eff.close w.client]) := by
  have hr : ∀ c, c ∈ k.known_codes → k.in_range c := hk.2.1
  obtain ⟨h1, h2, h3, h4⟩ := check_permissions_single k hk w.cred (is_root k w) (is_zygote w)
  refine ⟨?_, ?_, ?_, ?_⟩
  · intro hc hroot
    have hroot2 : is_root k w = false := by simpa [is_root] using hroot
    simp only [List.mem_cons, List.mem_singleton, List.not_mem_nil, or_false] at hc
    have hin : k.in_range w.code := hr _ ((mem_known_codes k _).2 (by tauto))
    apply handle_request_of_reject k w listen _ hadm hin
    by_cases hs : w.code = k.STOP_DAEMON
    · rw [hs, h3, hroot2]; rfl
    · rw [check_permissions_root_group k _ _ _ _ (by tauto), hroot2]; rfl
  · intro hc hroot hshell
    have hroot2 : is_root k w = false := by simpa [is_root] using hroot
    have hin : k.in_range w.code := hr _ ((mem_known_codes k _).2 (by tauto))
    apply handle_request_of_reject k w listen _ hadm hin
    rw [hc, h1, hroot2]
    simp [hshell]
  · intro hc hroot hz
    have hroot2 : is_root k w = false := by simpa [is_root] using hroot
    have hin : k.in_range w.code := hr _ ((mem_known_codes k _).2 (by tauto))
    apply handle_request_of_reject k w listen _ hadm hin
    rw [hc, h2, hroot2, hz]; rfl
  · intro hc hz
    have hin : k.in_range w.code := hr _ ((mem_known_codes k _).2 (by tauto))
    apply handle_request_of_reject k w listen _ hadm hin
    rw [hc, h4, hz]; rfl

/-- C1 at a first-party caller of uid 10000 asking for GET_PATH. -/
theorem handle_request_rejects_witness :
    sampleConsts.WF ∧ admitted sampleConsts (clientWorld 10000 1073741827) = true ∧
    handle_request sampleConsts (clientWorld 10000 1073741827) 3
      = [Eff.accept4 3, Eff.get_client_cred 7, Eff.read_int 7, Eff.write_int 7 1,
         Eff.close 7] :=
  ⟨by decide, by decide,
   (handle_request_rejects sampleConsts (clientWorld 10000 1073741827) 3 (by decide)
      (by decide)).1 (by decide) (by decide)⟩

/-- The label followed by a NUL, as the kernel reports it, is the label for
`check_zygote`: a root caller that is not first-party and carries it is the
zygote, and its ZYGISK_REQUEST is handed to `exec_task`. -/
theorem label_with_nul_is_zygote :
    check_zygote (labelNulWorld 0 12) (labelNulWorld 0 12).cred.pid = true ∧
    is_zygote (labelNulWorld 0 12) = true ∧
    handle_request sampleConsts (labelNulWorld 0 12) 3
      = [Eff.accept4 3, Eff.get_client_cred 7, Eff.read_int 7,
         Eff.exec_task 7 12 ⟨1234, 0, 0⟩] := by
  decide

/-- With `is_root` set, the permission switch rejects at most ZYGISK_REQUEST,
and then with DAEMON_ERROR. -/
theorem check_permissions_root (k : DaemonConsts) (cred : Ucred) (z : Bool) (code : Int) :
    check_permissions k cred true z code = none ∨
    check_permissions k cred true z code = some k.DAEMON_ERROR := by
  unfold check_permissions
  simp only [Bool.not_true, Bool.false_and, Bool.false_eq_true, if_false]
  split_ifs <;> simp

/-- No branch of `handle_request_sync` writes an integer other than the
version code and the acknowledgement 0. -/
theorem sync_write_int (k : DaemonConsts) (tmp : String) (client code fd v : Int)
    (h : Eff.write_int fd v ∈ (handle_request_sync k tmp client code).trace) :
    v = k.MAGISK_VER_CODE ∨ v = 0 := by
  unfold handle_request_sync at h
  split_ifs at h <;> simp at h <;> simp [h]

/-- C3: a connection whose peer uid is UID_ROOT is admitted whatever the two
probes answer and whatever opcode arrives: the opcode is read, the permission
switch can only reject with DAEMON_ERROR (a ZYGISK_REQUEST from a non-zygote),
and, ROOT_REQUIRED being different from the other integers the router can
write, the integer ROOT_REQUIRED is never written to the client. -/
theorem handle_request_root (k : DaemonConsts) (w : World) (listen : Int)
    (huid : w.cred.uid = k.UID_ROOT) :
    admitted k w = true ∧
    Eff.read_int w.client ∈ handle_request k w listen ∧
    (check_permissions k w.cred (is_root k w) (is_zygote w) w.code = none ∨
     check_permissions k w.cred (is_root k w) (is_zygote w) w.code = some k.DAEMON_ERROR) ∧
    (k.ROOT_REQUIRED ≠ k.DAEMON_ERROR → k.ROOT_REQUIRED ≠ 0 →
      k.ROOT_REQUIRED ≠ k.MAGISK_VER_CODE →
      Eff.write_int w.client k.ROOT_REQUIRED ∉ handle_request k w listen) := by
  have hroot : is_root k w = true := by simp [is_root, huid]
  have hadm : admitted k w = true := by simp [admitted, hroot]
  have hperm := check_permissions_root k w.cred (is_zygote w) w.code
  rw [← hroot] at hperm
  refine ⟨hadm, ?_, hperm, ?_⟩
  · by_cases hin : k.in_range w.code
    · rcases hperm with hp | hp
      · by_cases hs : Int.land w.code k.SYNC_FLAG = 0
        · rw [handle_request_of_async k w listen hadm hin hp hs]; simp
        · rw [handle_request_of_sync k w listen hadm hin hp hs]; simp
      · rw [handle_request_of_reject k w listen _ hadm hin hp]; simp
    · rw [handle_request_of_bad_code k w listen hadm hin]; simp
  · intro h1 h2 h3
    by_cases hin : k.in_range w.code
    · rcases hperm with hp | hp
      · by_cases hs : Int.land w.code k.SYNC_FLAG = 0
        · rw [handle_request_of_async k w listen hadm hin hp hs]; simp
        · rw [handle_request_of_sync k w listen hadm hin hp hs]
          intro hmem
          simp only [List.mem_append, List.mem_cons, List.mem_singleton, reduceCtorEq,
            List.not_mem_nil, or_false, false_or] at hmem
          rcases hmem with hmem | hmem
          · rcases sync_write_int k _ _ _ _ _ hmem with e | e
            · exact h3 e
            · exact h2 e
          · split_ifs at hmem <;> simp at hmem
      · rw [handle_request_of_reject k w listen _ hadm hin hp]; simp [h1]
    · rw [handle_request_of_bad_code k w listen hadm hin]; simp

/-- C3 at a root caller, with both probes failing, asking for GET_PATH. -/
theorem handle_request_root_witness :
    admitted sampleConsts (sampleWorld 0 1073741827) = true ∧
    Eff.write_int 7 1 ∉ handle_request sampleConsts (sampleWorld 0 1073741827) 3 :=
  have h := handle_request_root sampleConsts (sampleWorld 0 1073741827) 3 (by decide)
  ⟨h.1, h.2.2.2 (by decide) (by decide) (by decide)⟩

/-- The permission switch lets every opcode through that no handler knows. -/
theorem check_permissions_unknown (k : DaemonConsts) (cred : Ucred) (r z : Bool) (code : Int)
    (h : code ∉ k.known_codes) : check_permissions k cred r z code = none := by
  rw [mem_known_codes] at h
  simp only [not_or] at h
  obtain ⟨h0, -, h2, h3, h4, h5, h6, h7, -, -, h10, -, h12⟩ := h
  unfold check_permissions
  rw [if_neg (by simp only [not_or]; exact ⟨h2, h3, h4, h5, h10⟩), if_neg h6, if_neg h0,
    if_neg h12, if_neg h7]

/-- Function `handle_request_sync` does nothing on an opcode it has no case for. -/
theorem handle_request_sync_unknown (k : DaemonConsts) (tmp : String) (client code : Int)
    (h : code ∉ k.known_codes) : handle_request_sync k tmp client code = ⟨[], true⟩ := by
  rw [mem_known_codes] at h
  simp only [not_or] at h
  obtain ⟨-, -, -, -, -, -, -, -, h8, h9, h10, h11, h12⟩ := h
  unfold handle_request_sync
  rw [if_neg h8, if_neg h9, if_neg h10, if_neg h11, if_neg h12]

/-- Function `handle_request_async` takes its default branch on an unknown opcode. -/
theorem handle_request_async_unknown (k : DaemonConsts) (client code : Int) (cred : Ucred)
    (h : code ∉ k.known_codes) : handle_request_async k client code cred = [Eff.close client] := by
  rw [mem_known_codes] at h
  simp only [not_or] at h
  obtain ⟨h0, h1, h2, h3, h4, h5, h6, h7, -, -, -, -, -⟩ := h
  unfold handle_request_async
  rw [if_neg h0, if_neg h1, if_neg h2, if_neg h3, if_neg h4, if_neg h5, if_neg h6, if_neg h7]

/-- C4: an admitted caller that sends an opcode failing the range test, or one
that no handler has a case for, is answered nothing: the daemon's whole trace,
worker thread included, is accept, credentials, opcode read and one close of
the client, the close being issued either by `handle_request` itself or by the
default branch of the unit it handed to `exec_task`. -/
theorem unknown_opcode_silent (k : DaemonConsts) (w : World) (listen : Int)
    (hadm : admitted k w = true)
    (hunk : ¬ k.in_range w.code ∨ w.code ∉ k.known_codes) :
    daemon_trace k w listen
      = [Eff.accept4 listen, Eff.get_client_cred w.client, Eff.read_int w.client,
         Eff.close w.client] ∨
    daemon_trace k w listen
      = [Eff.accept4 listen, Eff.get_client_cred w.client, Eff.read_int w.client,
         Eff.exec_task w.client w.code w.cred, Eff.close w.client] := by
  by_cases hin : k.in_range w.code
  · have hk : w.code ∉ k.known_codes := by tauto
    have hp := check_permissions_unknown k w.cred (is_root k w) (is_zygote w) w.code hk
    by_cases hs : Int.land w.code k.SYNC_FLAG = 0
    · right
      simp [daemon_trace, handle_request_of_async k w listen hadm hin hp hs, run_task,
        handle_request_async_unknown k _ _ _ hk]
    · left
      simp [daemon_trace, handle_request_of_sync k w listen hadm hin hp hs, run_task,
        handle_request_sync_unknown k _ _ _ hk]
  · left
    simp [daemon_trace, handle_request_of_bad_code k w listen hadm hin, run_task]

/-- C4 at a first-party caller sending SUPERUSER with the synchronous bit set. -/
theorem unknown_opcode_silent_witness :
    admitted sampleConsts (clientWorld 10000 1073741829) = true ∧
    (1073741829 : Int) ∉ sampleConsts.known_codes ∧
    daemon_trace sampleConsts (clientWorld 10000 1073741829) 3
      = [Eff.accept4 3, Eff.get_client_cred 7, Eff.read_int 7, Eff.close 7] :=
  ⟨by decide, by decide,
   (unknown_opcode_silent sampleConsts (clientWorld 10000 1073741829) 3 (by decide)
      (Or.inr (by decide))).resolve_right (by decide)⟩

/-- The five cases of `handle_request_sync`, given distinct case labels. -/
theorem handle_request_sync_cases (k : DaemonConsts) (hk : k.WF) (tmp : String)
    (client : Int) :
    handle_request_sync k tmp client k.CHECK_VERSION
      = ⟨[Eff.write_string client (k.MAGISK_VERSION ++ ":MAGISK")], true⟩ ∧
    handle_request_sync k tmp client k.CHECK_VERSION_CODE
      = ⟨[Eff.write_int client k.MAGISK_VER_CODE], true⟩ ∧
    handle_request_sync k tmp client k.GET_PATH = ⟨[Eff.write_string client tmp], true⟩ ∧
    handle_request_sync k tmp client k.START_DAEMON = ⟨[Eff.setup_logfile true], true⟩ ∧
    handle_request_sync k tmp client k.STOP_DAEMON
      = ⟨[Eff.magiskhide_handler (-1) none, Eff.write_int client 0, Eff.exit 0], false⟩ := by
  have a1 : k.CHECK_VERSION_CODE ≠ k.CHECK_VERSION :=
    known_getD_ne k hk 9 8 (by decide) (by decide) (by decide)
  have b1 : k.GET_PATH ≠ k.CHECK_VERSION :=
    known_getD_ne k hk 10 8 (by decide) (by decide) (by decide)
  have b2 : k.GET_PATH ≠ k.CHECK_VERSION_CODE :=
    known_getD_ne k hk 10 9 (by decide) (by decide) (by decide)
  have c1 : k.START_DAEMON ≠ k.CHECK_VERSION :=
    known_getD_ne k hk 11 8 (by decide) (by decide) (by decide)
  have c2 : k.START_DAEMON ≠ k.CHECK_VERSION_CODE :=
    known_getD_ne k hk 11 9 (by decide) (by decide) (by decide)
  have c3 : k.START_DAEMON ≠ k.GET_PATH :=
    known_getD_ne k hk 11 10 (by decide) (by decide) (by decide)
  have d1 : k.STOP_DAEMON ≠ k.CHECK_VERSION :=
    known_getD_ne k hk 12 8 (by decide) (by decide) (by decide)
  have d2 : k.STOP_DAEMON ≠ k.CHECK_VERSION_CODE :=
    known_getD_ne k hk 12 9 (by decide) (by decide) (by decide)
  have d3 : k.STOP_DAEMON ≠ k.GET_PATH :=
    known_getD_ne k hk 12 10 (by decide) (by decide) (by decide)
  have d4 : k.STOP_DAEMON ≠ k.START_DAEMON :=
    known_getD_ne k hk 12 11 (by decide) (by decide) (by decide)
  unfold handle_request_sync
  refine ⟨?_, ?_, ?_, ?_, ?_⟩
  · rw [if_pos rfl]
  · rw [if_neg a1, if_pos rfl]
  · rw [if_neg b1, if_neg b2, if_pos rfl]
  · rw [if_neg c1, if_neg c2, if_neg c3, if_pos rfl]
  · rw [if_neg d1, if_neg d2, if_neg d3, if_neg d4, if_pos rfl]

/-- Function `handle_request_sync` fails to return on STOP_DAEMON only. -/
theorem handle_request_sync_returned (k : DaemonConsts) (hk : k.WF) (tmp : String)
    (client code : Int) :
    (handle_request_sync k tmp client code).returned = false ↔ code = k.STOP_DAEMON := by
  constructor
  · intro h
    unfold handle_request_sync at h
    split_ifs at h with h1 h2 h3 h4 h5
    exact h5
  · intro h
    rw [h, (handle_request_sync_cases k hk tmp client).2.2.2.2]

/-- Function `handle_request_sync` never hands work to `exec_task`. -/
theorem sync_no_exec_task (k : DaemonConsts) (tmp : String) (client code c cd : Int)
    (cr : Ucred) : Eff.exec_task c cd cr ∉ (handle_request_sync k tmp client code).trace := by
  unfold handle_request_sync
  split_ifs <;> simp

/-- C5, as amended: an admitted request that passed the range test and the
permission switch is served inline when its opcode carries SYNC_FLAG, and
`handle_request` then closes the client itself unless the opcode is
STOP_DAEMON, whose handler exits the process; `exec_task` is not called.
Without SYNC_FLAG the only further effect of `handle_request` is one
`exec_task` of the unit (client, opcode, credentials): no handler, no close. -/
theorem handle_request_dispatch (k : DaemonConsts) (w : World) (listen : Int)
    (hk : k.WF) (hadm : admitted k w = true) (hin : k.in_range w.code)
    (hp : check_permissions k w.cred (is_root k w) (is_zygote w) w.code = none) :
    (Int.land w.code k.SYNC_FLAG ≠ 0 →
      handle_request k w listen
        = [Eff.accept4 listen, Eff.get_client_cred w.client, Eff.read_int w.client]
          ++ (handle_request_sync k w.MAGISKTMP w.client w.code).trace
          ++ (if w.code = k.STOP_DAEMON then [] else [Eff.close w.client]) ∧
      ∀ c cd cr, Eff.exec_task c cd cr ∉ handle_request k w listen) ∧
    (Int.land w.code k.SYNC_FLAG = 0 →
      handle_request k w listen
        = [Eff.accept4 listen, Eff.get_client_cred w.client, Eff.read_int w.client,
           Eff.exec_task w.client w.code w.cred]) := by
  refine ⟨?_, ?_⟩
  · intro hs
    have hret := handle_request_sync_returned k hk w.MAGISKTMP w.client w.code
    have heq := handle_request_of_sync k w listen hadm hin hp hs
    have hshape : handle_request k w listen
        = [Eff.accept4 listen, Eff.get_client_cred w.client, Eff.read_int w.client]
          ++ (handle_request_sync k w.MAGISKTMP w.client w.code).trace
          ++ (if w.code = k.STOP_DAEMON then [] else [Eff.close w.client]) := by
      rw [heq]
      by_cases hc : w.code = k.STOP_DAEMON
      · rw [if_pos hc, hret.2 hc]; simp
      · have : (handle_request_sync k w.MAGISKTMP w.client w.code).returned = true := by
          cases hr : (handle_request_sync k w.MAGISKTMP w.client w.code).returned
          · exact absurd (hret.1 hr) hc
          · rfl
        rw [if_neg hc, this]; simp
    refine ⟨hshape, ?_⟩
    intro c cd cr hmem
    rw [hshape] at hmem
    simp only [List.mem_append, List.mem_cons, List.mem_singleton, reduceCtorEq,
      List.not_mem_nil, or_false, false_or] at hmem
    rcases hmem with hmem | hmem
    · exact sync_no_exec_task k _ _ _ _ _ _ hmem
    · split_ifs at hmem <;> simp at hmem
  · intro hs
    exact handle_request_of_async k w listen hadm hin hp hs

/-- C5 at a zygote sending ZYGISK_REQUEST, an asynchronous opcode. -/
theorem handle_request_dispatch_witness :
    handle_request sampleConsts (zygoteWorld 10000 12) 3
      = [Eff.accept4 3, Eff.get_client_cred 7, Eff.read_int 7,
         Eff.exec_task 7 12 ⟨1234, 10000, 10000⟩] :=
  (handle_request_dispatch sampleConsts (zygoteWorld 10000 12) 3 (by decide) (by decide)
    (by decide) (by decide)).2 (by decide)

/-- C5, as stated, fails for a root caller sending STOP_DAEMON: the request is
admitted, in range, authorized and synchronous, yet `handle_request` never
closes the client, the handler having exited the process. -/
theorem stop_daemon_never_closes :
    admitted sampleConsts (sampleWorld 0 1073741828) = true ∧
    sampleConsts.in_range 1073741828 ∧
    check_permissions sampleConsts (sampleWorld 0 1073741828).cred
      (is_root sampleConsts (sampleWorld 0 1073741828))
      (is_zygote (sampleWorld 0 1073741828)) 1073741828 = none ∧
    Int.land 1073741828 sampleConsts.SYNC_FLAG ≠ 0 ∧
    handle_request sampleConsts (sampleWorld 0 1073741828) 3
      = [Eff.accept4 3, Eff.get_client_cred 7, Eff.read_int 7,
         Eff.magiskhide_handler (-1) none, Eff.write_int 7 0, Eff.exit 0] ∧
    Eff.close 7 ∉ handle_request sampleConsts (sampleWorld 0 1073741828) 3 := by
  decide

/-- C6, as amended: GET_PATH is served to root only.  For a caller of uid
UID_ROOT the reply is the string MAGISKTMP followed by the close; as a poll
callback `handle_request` leaves `poll_fds` and `poll_map` as they were, and
the loop moves on to the next entry. -/
theorem get_path_root (k : DaemonConsts) (w : World) (listen : Int)
    (hk : k.WF) (huid : w.cred.uid = k.UID_ROOT) (hc : w.code = k.GET_PATH) :
    handle_request k w listen
      = [Eff.accept4 listen, Eff.get_client_cred w.client, Eff.read_int w.client,
         Eff.write_string w.client w.MAGISKTMP, Eff.close w.client] ∧
    (∀ i s, (handle_request_cb k w i s).1 = s) ∧
    (∀ (run : poll_callback → Nat → PollState → PollState) i s pfd cb,
      s.poll_fds.get? i = some pfd → pfd.revents ≠ 0 → is_error pfd.revents = false →
      map_find s.poll_map pfd.fd = some cb →
      run cb = (fun j t => (handle_request_cb k w j t).1) →
      poll_loop_step run i s = (i + 1, s)) := by
  have hroot : is_root k w = true := by simp [is_root, huid]
  have hadm : admitted k w = true := by simp [admitted, hroot]
  have hin : k.in_range w.code := hk.2.1 _ ((mem_known_codes k _).2 (by tauto))
  have hs : Int.land w.code k.SYNC_FLAG ≠ 0 :=
    hk.2.2.1 _ (by simp [DaemonConsts.sync_codes, hc])
  have hp : check_permissions k w.cred (is_root k w) (is_zygote w) w.code = none := by
    rw [check_permissions_root_group k _ _ _ _ (by tauto), hroot]; rfl
  have hcb : ∀ i s, (handle_request_cb k w i s).1 = s := by
    intro i s
    unfold handle_request_cb
    cases s.poll_fds.get? i <;> rfl
  refine ⟨?_, hcb, ?_⟩
  · rw [handle_request_of_sync k w listen hadm hin hp hs, hc,
      (handle_request_sync_cases k hk w.MAGISKTMP w.client).2.2.1]
    simp
  · intro run i s pfd cb hget hrev herr hfind hrun
    unfold poll_loop_step
    rw [hget]
    simp only [hrev, ne_eq, not_false_eq_true, if_true, herr, Bool.false_eq_true, if_false,
      hfind, hrun, hcb]

/-- C6 at a root caller. -/
theorem get_path_root_witness :
    handle_request sampleConsts (sampleWorld 0 1073741827) 3
      = [Eff.accept4 3, Eff.get_client_cred 7, Eff.read_int 7,
         Eff.write_string 7 "/sbin", Eff.close 7] :=
  (get_path_root sampleConsts (sampleWorld 0 1073741827) 3 (by decide) (by decide)
    (by decide)).1

/-- C6, as stated, fails for an admitted caller that is not root: a
first-party process of uid 10000 asking for GET_PATH is sent the integer
ROOT_REQUIRED and no string. -/
theorem get_path_refused_to_non_root :
    admitted sampleConsts (clientWorld 10000 sampleConsts.GET_PATH) = true ∧
    Eff.write_string 7 "/sbin"
      ∉ handle_request sampleConsts (clientWorld 10000 sampleConsts.GET_PATH) 3 ∧
    Eff.write_int 7 sampleConsts.ROOT_REQUIRED
      ∈ handle_request sampleConsts (clientWorld 10000 sampleConsts.GET_PATH) 3 := by
  decide

/-- C7, as amended: of the five synchronous opcodes, CHECK_VERSION,
CHECK_VERSION_CODE, GET_PATH and STOP_DAEMON write their reply to the client
before the close (before the exit, for STOP_DAEMON); START_DAEMON only calls
`setup_logfile(true)` and is closed without a reply. -/
theorem sync_replies (k : DaemonConsts) (w : World) (listen : Int)
    (hk : k.WF) (hadm : admitted k w = true) :
    (w.code = k.CHECK_VERSION →
      handle_request k w listen
        = [Eff.accept4 listen, Eff.get_client_cred w.client, Eff.read_int w.client,
           Eff.write_string w.client (k.MAGISK_VERSION ++ ":MAGISK"), Eff.close w.client]) ∧
    (w.code = k.CHECK_VERSION_CODE →
      handle_request k w listen
        = [Eff.accept4 listen, Eff.get_client_cred w.client, Eff.read_int w.client,
           Eff.write_int w.client k.MAGISK_VER_CODE, Eff.close w.client]) ∧
    (w.code = k.GET_PATH → w.cred.uid = k.UID_ROOT →
      handle_request k w listen
        = [Eff.accept4 listen, Eff.get_client_cred w.client, Eff.read_int w.client,
           Eff.write_string w.client w.MAGISKTMP, Eff.close w.client]) ∧
    (w.code = k.STOP_DAEMON → w.cred.uid = k.UID_ROOT →
      handle_request k w listen
        = [Eff.accept4 listen, Eff.get_client_cred w.client, Eff.read_int w.client,
           Eff.magiskhide_handler (-1) none, Eff.write_int w.client 0, Eff.exit 0]) ∧
    (w.code = k.START_DAEMON →
      handle_request k w listen
        = [Eff.accept4 listen, Eff.get_client_cred w.client, Eff.read_int w.client,
           Eff.setup_logfile true, Eff.close w.client]) := by
  have hr : ∀ c, c ∈ k.known_codes → k.in_range c := hk.2.1
  have hsy : ∀ c, c ∈ k.sync_codes → Int.land c k.SYNC_FLAG ≠ 0 := hk.2.2.1
  obtain ⟨s1, s2, s3, s4, s5⟩ := handle_request_sync_cases k hk w.MAGISKTMP w.client
  have hnk : ∀ c, c ∈ k.sync_codes → c ≠ k.STOP_DAEMON → c ≠ k.GET_PATH →
      check_permissions k w.cred (is_root k w) (is_zygote w) c = none := by
    intro c hc h1 h2
    simp only [DaemonConsts.sync_codes, List.mem_cons, List.mem_singleton,
      List.not_mem_nil, or_false] at hc
    have e8 : k.CHECK_VERSION = k.known_codes.getD 8 0 := rfl
    have e9 : k.CHECK_VERSION_CODE = k.known_codes.getD 9 0 := rfl
    have e11 : k.START_DAEMON = k.known_codes.getD 11 0 := rfl
    have m2 : k.POST_FS_DATA = k.known_codes.getD 2 0 := rfl
    have m3 : k.LATE_START = k.known_codes.getD 3 0 := rfl
    have m4 : k.BOOT_COMPLETE = k.known_codes.getD 4 0 := rfl
    have m5 : k.SQLITE_CMD = k.known_codes.getD 5 0 := rfl
    have m6 : k.REMOVE_MODULES = k.known_codes.getD 6 0 := rfl
    have m0 : k.MAGISKHIDE = k.known_codes.getD 0 0 := rfl
    have m7 : k.ZYGISK_REQUEST = k.known_codes.getD 7 0 := rfl
    have key : ∀ i, i = 8 ∨ i = 9 ∨ i = 11 → c = k.known_codes.getD i 0 →
        check_permissions k w.cred (is_root k w) (is_zygote w) c = none := by
      intro i hi e
      have n2 : c ≠ k.POST_FS_DATA := by
        rw [e, m2]; exact known_getD_ne k hk i 2 (by omega) (by decide) (by omega)
      have n3 : c ≠ k.LATE_START := by
        rw [e, m3]; exact known_getD_ne k hk i 3 (by omega) (by decide) (by omega)
      have n4 : c ≠ k.BOOT_COMPLETE := by
        rw [e, m4]; exact known_getD_ne k hk i 4 (by omega) (by decide) (by omega)
      have n5 : c ≠ k.SQLITE_CMD := by
        rw [e, m5]; exact known_getD_ne k hk i 5 (by omega) (by decide) (by omega)
      have n6 : c ≠ k.REMOVE_MODULES := by
        rw [e, m6]; exact known_getD_ne k hk i 6 (by omega) (by decide) (by omega)
      have n0 : c ≠ k.MAGISKHIDE := by
        rw [e, m0]; exact known_getD_ne k hk i 0 (by omega) (by decide) (by omega)
      have n7 : c ≠ k.ZYGISK_REQUEST := by
        rw [e, m7]; exact known_getD_ne k hk i 7 (by omega) (by decide) (by omega)
      unfold check_permissions
      rw [if_neg (by simp only [not_or]; exact ⟨n2, n3, n4, n5, h2⟩), if_neg n6, if_neg n0,
        if_neg h1, if_neg n7]
    rcases hc with hc | hc | hc | hc | hc
    · exact key 8 (by omega) (by rw [hc]; exact e8)
    · exact key 9 (by omega) (by rw [hc]; exact e9)
    · exact absurd hc h2
    · exact key 11 (by omega) (by rw [hc]; exact e11)
    · exact absurd hc h1
  have n1 : k.CHECK_VERSION ≠ k.STOP_DAEMON :=
    known_getD_ne k hk 8 12 (by decide) (by decide) (by decide)
  have n2 : k.CHECK_VERSION ≠ k.GET_PATH :=
    known_getD_ne k hk 8 10 (by decide) (by decide) (by decide)
  have n3 : k.CHECK_VERSION_CODE ≠ k.STOP_DAEMON :=
    known_getD_ne k hk 9 12 (by decide) (by decide) (by decide)
  have n4 : k.CHECK_VERSION_CODE ≠ k.GET_PATH :=
    known_getD_ne k hk 9 10 (by decide) (by decide) (by decide)
  have n5 : k.START_DAEMON ≠ k.STOP_DAEMON :=
    known_getD_ne k hk 11 12 (by decide) (by decide) (by decide)
  have n6 : k.START_DAEMON ≠ k.GET_PATH :=
    known_getD_ne k hk 11 10 (by decide) (by decide) (by decide)
  refine ⟨?_, ?_, ?_, ?_, ?_⟩
  · intro hc
    have hmem : w.code ∈ k.sync_codes := by simp [DaemonConsts.sync_codes, hc]
    have hp := hnk w.code hmem (by rw [hc]; exact n1) (by rw [hc]; exact n2)
    rw [handle_request_of_sync k w listen hadm
      (hr _ ((mem_known_codes k _).2 (by tauto))) hp (hsy _ hmem), hc, s1]
    simp
  · intro hc
    have hmem : w.code ∈ k.sync_codes := by simp [DaemonConsts.sync_codes, hc]
    have hp := hnk w.code hmem (by rw [hc]; exact n3) (by rw [hc]; exact n4)
    rw [handle_request_of_sync k w listen hadm
      (hr _ ((mem_known_codes k _).2 (by tauto))) hp (hsy _ hmem), hc, s2]
    simp
  · intro hc huid
    have hroot : is_root k w = true := by simp [is_root, huid]
    have hmem : w.code ∈ k.sync_codes := by simp [DaemonConsts.sync_codes, hc]
    have hp : check_permissions k w.cred (is_root k w) (is_zygote w) w.code = none := by
      rw [check_permissions_root_group k _ _ _ _ (by tauto), hroot]; rfl
    rw [handle_request_of_sync k w listen hadm
      (hr _ ((mem_known_codes k _).2 (by tauto))) hp (hsy _ hmem), hc, s3]
    simp
  · intro hc huid
    have hroot : is_root k w = true := by simp [is_root, huid]
    have hmem : w.code ∈ k.sync_codes := by simp [DaemonConsts.sync_codes, hc]
    have hp : check_permissions k w.cred (is_root k w) (is_zygote w) w.code = none := by
      rw [hc, (check_permissions_single k hk w.cred _ _).2.2.1, hroot]; rfl
    rw [handle_request_of_sync k w listen hadm
      (hr _ ((mem_known_codes k _).2 (by tauto))) hp (hsy _ hmem), hc, s5]
    simp
  · intro hc
    have hmem : w.code ∈ k.sync_codes := by simp [DaemonConsts.sync_codes, hc]
    have hp := hnk w.code hmem (by rw [hc]; exact n5) (by rw [hc]; exact n6)
    rw [handle_request_of_sync k w listen hadm
      (hr _ ((mem_known_codes k _).2 (by tauto))) hp (hsy _ hmem), hc, s4]
    simp

/-- C7 at a first-party caller of uid 10000 asking for CHECK_VERSION_CODE. -/
theorem sync_replies_witness :
    handle_request sampleConsts (clientWorld 10000 1073741826) 3
      = [Eff.accept4 3, Eff.get_client_cred 7, Eff.read_int 7, Eff.write_int 7 23000,
         Eff.close 7] :=
  (sync_replies sampleConsts (clientWorld 10000 1073741826) 3 (by decide)
    (by decide)).2.1 (by decide)

/-- C7, as stated, fails for START_DAEMON: sent by root, it is served and the
client is closed, and no effect of the trace writes to the client. -/
theorem start_daemon_no_reply :
    handle_request sampleConsts (sampleWorld 0 sampleConsts.START_DAEMON) 3
      = [Eff.accept4 3, Eff.get_client_cred 7, Eff.read_int 7, Eff.setup_logfile true,
         Eff.close 7] ∧
    (handle_request sampleConsts (sampleWorld 0 sampleConsts.START_DAEMON) 3).all
      (fun e => !e.writes_to 7) = true := by
  decide

/-- The REMOVE_MODULES case of `handle_request_async`, given distinct labels. -/
theorem handle_request_async_remove (k : DaemonConsts) (hk : k.WF) (client : Int)
    (cred : Ucred) :
    handle_request_async k client k.REMOVE_MODULES cred
      = [Eff.remove_modules, Eff.write_int client 0, Eff.close client, Eff.reboot] := by
  have a0 : k.REMOVE_MODULES ≠ k.MAGISKHIDE :=
    known_getD_ne k hk 6 0 (by decide) (by decide) (by decide)
  have a1 : k.REMOVE_MODULES ≠ k.SUPERUSER :=
    known_getD_ne k hk 6 1 (by decide) (by decide) (by decide)
  have a2 : k.REMOVE_MODULES ≠ k.POST_FS_DATA :=
    known_getD_ne k hk 6 2 (by decide) (by decide) (by decide)
  have a3 : k.REMOVE_MODULES ≠ k.LATE_START :=
    known_getD_ne k hk 6 3 (by decide) (by decide) (by decide)
  have a4 : k.REMOVE_MODULES ≠ k.BOOT_COMPLETE :=
    known_getD_ne k hk 6 4 (by decide) (by decide) (by decide)
  have a5 : k.REMOVE_MODULES ≠ k.SQLITE_CMD :=
    known_getD_ne k hk 6 5 (by decide) (by decide) (by decide)
  unfold handle_request_async
  rw [if_neg a0, if_neg a1, if_neg a2, if_neg a3, if_neg a4, if_neg a5, if_pos rfl]

/-- What `ack_first` computes: every terminal effect of the trace comes after
a `write_int(client, 0)`. -/
theorem ack_first_sound (client : Int) (l : List Eff) (h : ack_first client l = true)
    (p : List Eff) (e : Eff) (q : List Eff) (hl : l = p ++ e :: q)
    (he : e.is_terminal = true) : Eff.write_int client 0 ∈ p := by
  induction l generalizing p with
  | nil => simp at hl
  | cons a l ih =>
    simp only [ack_first, Bool.or_eq_true, beq_iff_eq, Bool.and_eq_true,
      Bool.not_eq_true'] at h
    cases p with
    | nil =>
      simp only [List.nil_append, List.cons.injEq] at hl
      rcases h with h | h
      · rw [← hl.1, h] at he
        simp [Eff.is_terminal] at he
      · rw [← hl.1, h.1] at he
        simp at he
    | cons b p =>
      simp only [List.cons_append, List.cons.injEq] at hl
      rcases h with h | h
      · rw [← hl.1, h]; simp
      · exact List.mem_cons_of_mem _ (ih h.2 p hl.2)

/-- On every input, the daemon's trace (worker unit included) passes the scan. -/
theorem ack_first_daemon_trace (k : DaemonConsts) (w : World) (listen : Int) :
    ack_first w.client (daemon_trace k w listen) = true := by
  unfold daemon_trace
  cases hadm : admitted k w with
  | false =>
    simp [handle_request_of_not_admitted k w listen hadm, run_task, ack_first,
      Eff.is_terminal]
  | true =>
    by_cases hin : k.in_range w.code
    · cases hp : check_permissions k w.cred (is_root k w) (is_zygote w) w.code with
      | some rc =>
        simp [handle_request_of_reject k w listen rc hadm hin hp, run_task, ack_first,
          Eff.is_terminal]
      | none =>
        by_cases hs : Int.land w.code k.SYNC_FLAG = 0
        · simp only [handle_request_of_async k w listen hadm hin hp hs, List.map, run_task,
            List.flatten, List.nil_append, List.append_nil, List.cons_append]
          unfold handle_request_async
          split_ifs <;> simp [ack_first, Eff.is_terminal]
        · simp only [handle_request_of_sync k w listen hadm hin hp hs]
          unfold handle_request_sync
          split_ifs <;> simp [run_task, ack_first, Eff.is_terminal]
    · simp [handle_request_of_bad_code k w listen hadm hin, run_task, ack_first,
        Eff.is_terminal]

/-- C8: an authorized STOP_DAEMON writes the acknowledgement 0 and only then
exits with status 0; an authorized REMOVE_MODULES runs `remove_modules`,
writes 0, closes the client and only then reboots; and on every input, each
`exit` or `reboot` in the daemon's trace has a `write_int(client, 0)` before
it. -/
theorem ack_precedes_termination (k : DaemonConsts) (w : World) (listen : Int)
    (hk : k.WF) :
    (w.code = k.STOP_DAEMON → w.cred.uid = k.UID_ROOT →
      daemon_trace k w listen
        = [Eff.accept4 listen, Eff.get_client_cred w.client, Eff.read_int w.client,
           Eff.magiskhide_handler (-1) none, Eff.write_int w.client 0, Eff.exit 0]) ∧
    (w.code = k.REMOVE_MODULES → admitted k w = true →
      (w.cred.uid = k.UID_ROOT ∨ w.cred.uid = k.UID_SHELL) →
      daemon_trace k w listen
        = [Eff.accept4 listen, Eff.get_client_cred w.client, Eff.read_int w.client,
           Eff.exec_task w.client w.code w.cred, Eff.remove_modules,
           Eff.write_int w.client 0, Eff.close w.client, Eff.reboot]) ∧
    (∀ p e q, daemon_trace k w listen = p ++ e :: q → (e = Eff.reboot ∨ ∃ st, e = Eff.exit st) →
      Eff.write_int w.client 0 ∈ p) := by
  refine ⟨?_, ?_, ?_⟩
  · intro hc huid
    have hroot : is_root k w = true := by simp [is_root, huid]
    have hadm : admitted k w = true := by simp [admitted, hroot]
    have hin : k.in_range w.code := hk.2.1 _ ((mem_known_codes k _).2 (by tauto))
    have hs : Int.land w.code k.SYNC_FLAG ≠ 0 :=
      hk.2.2.1 _ (by simp [DaemonConsts.sync_codes, hc])
    have hp : check_permissions k w.cred (is_root k w) (is_zygote w) w.code = none := by
      rw [hc, (check_permissions_single k hk w.cred _ _).2.2.1, hroot]; rfl
    simp only [daemon_trace, handle_request_of_sync k w listen hadm hin hp hs]
    rw [hc, (handle_request_sync_cases k hk w.MAGISKTMP w.client).2.2.2.2]
    simp [run_task]
  · intro hc hadm huid
    have hin : k.in_range w.code := hk.2.1 _ ((mem_known_codes k _).2 (by tauto))
    have hs : Int.land w.code k.SYNC_FLAG = 0 :=
      hk.2.2.2 _ (by simp [DaemonConsts.async_codes, hc])
    have hp : check_permissions k w.cred (is_root k w) (is_zygote w) w.code = none := by
      rw [hc, (check_permissions_single k hk w.cred _ _).1]
      rcases huid with h | h <;> simp [is_root, h]
    simp only [daemon_trace, handle_request_of_async k w listen hadm hin hp hs]
    simp [run_task, hc, handle_request_async_remove k hk]
  · intro p e q hl he
    apply ack_first_sound w.client _ (ack_first_daemon_trace k w listen) p e q hl
    rcases he with he | ⟨st, he⟩ <;> rw [he] <;> rfl

/-- C8 at a shell caller (uid 2000, first-party) asking for REMOVE_MODULES. -/
theorem ack_precedes_termination_witness :
    daemon_trace sampleConsts (clientWorld 2000 11) 3
      = [Eff.accept4 3, Eff.get_client_cred 7, Eff.read_int 7,
         Eff.exec_task 7 11 ⟨1234, 2000, 2000⟩, Eff.remove_modules,
         Eff.write_int 7 0, Eff.close 7, Eff.reboot] :=
  (ack_precedes_termination sampleConsts (clientWorld 2000 11) 3 (by decide)).2.1
    (by decide) (by decide) (by decide)

/-! ## Poll multiplexer -/

/-- C9: from a thread other than the owner, `register_poll` and
`unregister_poll` only append one control message to the pipe and leave
`poll_fds` and `poll_map` alone; `poll_ctrl_handler`, consuming that message
on the owning thread, produces the state that the direct call on the owning
thread produces, and the registered entry is then in `poll_fds`. -/
theorem poll_ctrl_refines (fds : List Pollfd) (map : List (Int × poll_callback))
    (q rest : List CtrlItem) (closed : List Int) (pfd : Pollfd) (cb : poll_callback)
    (fd : Int) (auto_close : Bool) :
    register_poll false pfd cb ⟨fds, map, q, closed⟩
      = ⟨fds, map, q ++ [CtrlItem.int POLL_CTRL_NEW, CtrlItem.pfd pfd, CtrlItem.cb cb],
         closed⟩ ∧
    poll_ctrl_handler
        ⟨fds, map, [CtrlItem.int POLL_CTRL_NEW, CtrlItem.pfd pfd, CtrlItem.cb cb] ++ rest,
         closed⟩
      = some (register_poll true pfd cb ⟨fds, map, rest, closed⟩) ∧
    poll_ctrl_handler (register_poll false pfd cb ⟨fds, map, [], closed⟩)
      = some (register_poll true pfd cb ⟨fds, map, [], closed⟩) ∧
    pfd ∈ (register_poll true pfd cb ⟨fds, map, rest, closed⟩).poll_fds ∧
    unregister_poll false fd auto_close ⟨fds, map, q, closed⟩
      = ⟨fds, map, q ++ [CtrlItem.int POLL_CTRL_RM, CtrlItem.int fd,
           CtrlItem.int (if auto_close then 1 else 0)], closed⟩ ∧
    poll_ctrl_handler
        ⟨fds, map, [CtrlItem.int POLL_CTRL_RM, CtrlItem.int fd,
           CtrlItem.int (if auto_close then 1 else 0)] ++ rest, closed⟩
      = some (unregister_poll true fd auto_close ⟨fds, map, rest, closed⟩) ∧
    poll_ctrl_handler (unregister_poll false fd auto_close ⟨fds, map, [], closed⟩)
      = some (unregister_poll true fd auto_close ⟨fds, map, [], closed⟩) := by
  refine ⟨rfl, rfl, rfl, ?_, rfl, ?_, ?_⟩
  · simp [register_poll]
  · cases auto_close <;> rfl
  · cases auto_close <;> rfl

/-- The range-for of `unregister_poll` issues no close, or one close of `fd`. -/
theorem invalidate_closes (fd : Int) (auto_close : Bool) (l : List Pollfd) :
    (invalidate fd auto_close l).2 = [] ∨ (invalidate fd auto_close l).2 = [fd] := by
  induction l with
  | nil => left; rfl
  | cons p ps ih =>
    unfold invalidate
    by_cases h : p.fd = fd
    · rw [if_pos h]
      cases auto_close
      · left; rfl
      · right; simp [h]
    · rw [if_neg h]; exact ih

/-- With a matching entry present and auto_close set, exactly one close. -/
theorem invalidate_closes_of_mem (fd : Int) (l : List Pollfd)
    (h : ∃ p ∈ l, p.fd = fd) : (invalidate fd true l).2 = [fd] := by
  induction l with
  | nil => simp at h
  | cons p ps ih =>
    unfold invalidate
    by_cases hp : p.fd = fd
    · rw [if_pos hp]; simp [hp]
    · rw [if_neg hp]
      apply ih
      obtain ⟨x, hx, hxfd⟩ := h
      rcases List.mem_cons.1 hx with e | e
      · exact absurd (e ▸ hxfd) hp
      · exact ⟨x, e, hxfd⟩

/-- Without a matching entry the vector is left as it is and nothing is closed. -/
theorem invalidate_of_not_mem (fd : Int) (auto_close : Bool) (l : List Pollfd)
    (h : ∀ p ∈ l, p.fd ≠ fd) : invalidate fd auto_close l = (l, []) := by
  induction l with
  | nil => rfl
  | cons p ps ih =>
    unfold invalidate
    rw [if_neg (h p (List.mem_cons_self _ _)),
      ih (fun x hx => h x (List.mem_cons_of_mem _ hx))]

/-- Invalidation keeps every slot in place and keeps its revents. -/
theorem invalidate_get (fd : Int) (auto_close : Bool) (l : List Pollfd) (i : Nat)
    (p : Pollfd) (h : l.get? i = some p) :
    ∃ p2, (invalidate fd auto_close l).1.get? i = some p2 ∧ p2.revents = p.revents := by
  induction l generalizing i with
  | nil => simp at h
  | cons a l ih =>
    unfold invalidate
    by_cases ha : a.fd = fd
    · rw [if_pos ha]
      cases i with
      | zero =>
        simp only [List.get?_cons_zero, Option.some.injEq] at h
        exact ⟨{ a with fd := -1 }, rfl, by rw [← h]⟩
      | succ j => exact ⟨p, by simpa using h, rfl⟩
    · rw [if_neg ha]
      cases i with
      | zero => exact ⟨p, by simpa using h, rfl⟩
      | succ j =>
        simp only [List.get?_cons_succ] at h
        obtain ⟨p2, h1, h2⟩ := ih j h
        exact ⟨p2, by simpa using h1, h2⟩

/-- Erasing the only slot that holds `fd` leaves no slot holding `fd`. -/
theorem eraseIdx_no_fd (fd : Int) (l : List Pollfd) (i : Nat) (p : Pollfd)
    (h : l.get? i = some p) (hp : p.fd = fd)
    (hone : l.countP (fun x => x.fd == fd) = 1) :
    ∀ x ∈ l.eraseIdx i, x.fd ≠ fd := by
  induction l generalizing i with
  | nil => simp at h
  | cons a l ih =>
    cases i with
    | zero =>
      simp only [List.get?_cons_zero, Option.some.injEq] at h
      have ha : (a.fd == fd) = true := by rw [h, hp]; simp
      rw [List.countP_cons_of_pos (fun x : Pollfd => x.fd == fd) l ha] at hone
      have h0 : l.countP (fun x => x.fd == fd) = 0 := by omega
      rw [List.countP_eq_zero] at h0
      intro x hx
      simp only [List.eraseIdx_cons_zero] at hx
      have := h0 x hx
      simpa using this
    | succ j =>
      simp only [List.get?_cons_succ] at h
      have hmem : p ∈ l := List.get?_mem h
      have hpos : 0 < l.countP (fun x => x.fd == fd) :=
        List.countP_pos_iff.2 ⟨p, hmem, by simp [hp]⟩
      by_cases ha : (a.fd == fd) = true
      · rw [List.countP_cons_of_pos (fun x : Pollfd => x.fd == fd) l ha] at hone
        omega
      · rw [List.countP_cons_of_neg (fun x : Pollfd => x.fd == fd) l ha] at hone
        intro x hx
        simp only [List.eraseIdx_cons_succ, List.mem_cons] at hx
        rcases hx with e | e
        · rw [e]; simpa using ha
        · exact ih j h hone x e

/-- An error revents is a non-zero revents (line 106 before line 107). -/
theorem is_error_ne_zero (r : Int) (h : is_error r = true) : r ≠ 0 := by
  intro h0
  rw [h0] at h
  exact absurd h (by decide)

/-- The turn of the loop at a slot that reports an error: the slot and its
map entry are erased, no callback runs, nothing is closed. -/
theorem poll_loop_step_error (run : poll_callback → Nat → PollState → PollState) (i : Nat)
    (s : PollState) (pfd : Pollfd) (hget : s.poll_fds.get? i = some pfd)
    (herr : is_error pfd.revents = true) :
    poll_loop_step run i s
      = (i, { s with poll_map := map_erase s.poll_map pfd.fd,
                     poll_fds := s.poll_fds.eraseIdx i }) := by
  unfold poll_loop_step
  rw [hget]
  simp only [if_pos (is_error_ne_zero _ herr), herr, if_true]

/-- C10: take a slot `i` of `poll_fds` that holds `fd` and reports POLLERR or
POLLNVAL.  Whether the owning thread first purges the slot in `poll_loop` and
then applies `unregister_poll(fd, true)`, or first applies the unregister and
then purges the slot, `close(fd)` is issued at most once more than before: the
purge closes nothing, so the second order closes exactly once, and the first
order closes nothing when `fd` was registered once. -/
theorem close_at_most_once (run : poll_callback → Nat → PollState → PollState)
    (s : PollState) (fd : Int) (i : Nat) (pfd : Pollfd)
    (hget : s.poll_fds.get? i = some pfd) (hfd : pfd.fd = fd)
    (herr : is_error pfd.revents = true) :
    (unregister_poll true fd true (poll_loop_step run i s).2).closed.count fd
      ≤ s.closed.count fd + 1 ∧
    (poll_loop_step run i (unregister_poll true fd true s)).2.closed.count fd
      ≤ s.closed.count fd + 1 ∧
    (poll_loop_step run i (unregister_poll true fd true s)).2.closed = s.closed ++ [fd] ∧
    (s.poll_fds.countP (fun p => p.fd == fd) = 1 →
      (unregister_poll true fd true (poll_loop_step run i s).2).closed = s.closed) := by
  have hstep := poll_loop_step_error run i s pfd hget herr
  have hsecond : (poll_loop_step run i (unregister_poll true fd true s)).2.closed
      = s.closed ++ [fd] := by
    obtain ⟨p2, hg2, hr2⟩ := invalidate_get fd true s.poll_fds i pfd hget
    have hg3 : (unregister_poll true fd true s).poll_fds.get? i = some p2 := by
      simpa [unregister_poll] using hg2
    rw [poll_loop_step_error run i _ p2 hg3 (by rw [hr2]; exact herr)]
    simp only [unregister_poll, if_true]
    rw [invalidate_closes_of_mem fd s.poll_fds ⟨pfd, List.get?_mem hget, hfd⟩]
  refine ⟨?_, ?_, hsecond, ?_⟩
  · rw [hstep]
    simp only [unregister_poll, if_true, List.count_append]
    rcases invalidate_closes fd true (s.poll_fds.eraseIdx i) with h | h <;> rw [h] <;> simp
  · rw [hsecond]; simp
  · intro hone
    rw [hstep]
    simp only [unregister_poll, if_true]
    rw [invalidate_of_not_mem fd true _ (eraseIdx_no_fd fd s.poll_fds i pfd hget hfd hone)]
    simp

/-- C10 at the sample multiplexer, whose slot 2 holds fd 9 with POLLERR set. -/
theorem close_at_most_once_witness :
    (unregister_poll true 9 true (poll_loop_step (fun _ _ t => t) 2 samplePoll).2).closed = [] ∧
    (poll_loop_step (fun _ _ t => t) 2 (unregister_poll true 9 true samplePoll)).2.closed
      = [9] :=
  have h := close_at_most_once (fun _ _ t => t) samplePoll 9 2 ⟨9, 1, 8⟩ (by decide)
    (by decide) (by decide)
  ⟨h.2.2.2 (by decide), h.2.2.1⟩

/-! ## Companion broker -/

/-- Reading back the slot that was just written. -/
theorem at_abi_set_abi (a : Int × Int) (b : Bool) (v : Int) : at_abi (set_abi a b v) b = v := by
  cases b <;> rfl

/-- Writing a slot twice keeps the second value. -/
theorem set_abi_set_abi (a : Int × Int) (b : Bool) (u v : Int) :
    set_abi (set_abi a b u) b v = set_abi a b v := by
  cases b <;> rfl

/-- The spawn branch of `connect_companion` (lines 226-248), entered with the
slot of the ABI unset. -/
theorem connect_companion_spawn (w : ZygiskWorld) (client : Int) (is_64_bit : Bool)
    (st : ZygiskState) (h : at_abi st.zygiskd_sockets is_64_bit < 0) :
    connect_companion w client is_64_bit st
      = ({ st with zygiskd_sockets := set_abi st.zygiskd_sockets is_64_bit w.socketpair.1 },
         [ZEff.socketpair w.socketpair.1 w.socketpair.2,
          ZEff.fork_exec (w.MAGISKTMP ++ "/magisk" ++ (if is_64_bit then "64" else "32"))
            (toString w.socketpair.2),
          ZEff.close w.socketpair.2,
          ZEff.send_fds w.socketpair.1 (get_module_fds w is_64_bit),
          ZEff.read_int w.socketpair.1]
         ++ (if w.ack = 0 then [ZEff.send_fd w.socketpair.1 client] else [])) := by
  have h2 : ¬ at_abi st.zygiskd_sockets is_64_bit ≥ 0 := by omega
  unfold connect_companion
  simp only [if_neg h2, if_pos h, at_abi_set_abi, List.nil_append]
  by_cases hack : w.ack = 0
  · simp [hack]
  · simp [hack]

/-- The stale branch of `connect_companion`: the probe reports an event on
the cached socket, which is closed before the spawn branch runs. -/
theorem connect_companion_stale (w : ZygiskWorld) (client : Int) (is_64_bit : Bool)
    (st : ZygiskState) (h : at_abi st.zygiskd_sockets is_64_bit ≥ 0)
    (hp : w.probe (at_abi st.zygiskd_sockets is_64_bit) ≠ 0) :
    connect_companion w client is_64_bit st
      = ({ st with zygiskd_sockets := set_abi st.zygiskd_sockets is_64_bit w.socketpair.1 },
         [ZEff.poll (at_abi st.zygiskd_sockets is_64_bit) 0,
          ZEff.close (at_abi st.zygiskd_sockets is_64_bit),
          ZEff.socketpair w.socketpair.1 w.socketpair.2,
          ZEff.fork_exec (w.MAGISKTMP ++ "/magisk" ++ (if is_64_bit then "64" else "32"))
            (toString w.socketpair.2),
          ZEff.close w.socketpair.2,
          ZEff.send_fds w.socketpair.1 (get_module_fds w is_64_bit),
          ZEff.read_int w.socketpair.1]
         ++ (if w.ack = 0 then [ZEff.send_fd w.socketpair.1 client] else [])) := by
  unfold connect_companion
  simp only [if_pos h, if_pos hp, at_abi_set_abi, set_abi_set_abi]
  by_cases hack : w.ack = 0
  · simp [hack]
  · simp [hack]

/-- The reuse branch of `connect_companion`: the probe reports nothing. -/
theorem connect_companion_reuse (w : ZygiskWorld) (client : Int) (is_64_bit : Bool)
    (st : ZygiskState) (h : at_abi st.zygiskd_sockets is_64_bit ≥ 0)
    (hp : w.probe (at_abi st.zygiskd_sockets is_64_bit) = 0) :
    connect_companion w client is_64_bit st
      = (st, [ZEff.poll (at_abi st.zygiskd_sockets is_64_bit) 0,
              ZEff.send_fd (at_abi st.zygiskd_sockets is_64_bit) client]) := by
  have h2 : ¬ at_abi st.zygiskd_sockets is_64_bit < 0 := by omega
  unfold connect_companion
  simp [h, hp, h2]

/-- C11, as amended: with the ABI's cached socket set, a probe that reports
any revents makes `connect_companion` close the cached socket, create a new
pair, start a companion and hand it the module descriptors; the client
descriptor is then sent over the new socket when the acknowledgement read is
0, and not sent otherwise.  A probe that reports 0 makes it send the client
over the cached socket and nothing else: no pair, no process. -/
theorem connect_companion_probe (w : ZygiskWorld) (client : Int) (is_64_bit : Bool)
    (st : ZygiskState) (h : at_abi st.zygiskd_sockets is_64_bit ≥ 0) :
    (w.probe (at_abi st.zygiskd_sockets is_64_bit) ≠ 0 →
      connect_companion w client is_64_bit st
        = ({ st with zygiskd_sockets := set_abi st.zygiskd_sockets is_64_bit w.socketpair.1 },
           [ZEff.poll (at_abi st.zygiskd_sockets is_64_bit) 0,
            ZEff.close (at_abi st.zygiskd_sockets is_64_bit),
            ZEff.socketpair w.socketpair.1 w.socketpair.2,
            ZEff.fork_exec (w.MAGISKTMP ++ "/magisk" ++ (if is_64_bit then "64" else "32"))
              (toString w.socketpair.2),
            ZEff.close w.socketpair.2,
            ZEff.send_fds w.socketpair.1 (get_module_fds w is_64_bit),
            ZEff.read_int w.socketpair.1]
           ++ (if w.ack = 0 then [ZEff.send_fd w.socketpair.1 client] else []))) ∧
    (w.probe (at_abi st.zygiskd_sockets is_64_bit) = 0 →
      connect_companion w client is_64_bit st
        = (st, [ZEff.poll (at_abi st.zygiskd_sockets is_64_bit) 0,
                ZEff.send_fd (at_abi st.zygiskd_sockets is_64_bit) client])) :=
  ⟨connect_companion_stale w client is_64_bit st h,
   connect_companion_reuse w client is_64_bit st h⟩

/-- C11 at a cached 64-bit socket 5 that reports POLLHUP, the new companion
acknowledging with 0. -/
theorem connect_companion_probe_witness :
    connect_companion (cworld 16 0) 7 true ⟨(-1, 5), ⟨0, 0⟩, (0, 1)⟩
      = (⟨(-1, 30), ⟨0, 0⟩, (0, 1)⟩,
         [ZEff.poll 5 0, ZEff.close 5, ZEff.socketpair 30 31,
          ZEff.fork_exec "/sbin/magisk64" "31", ZEff.close 31, ZEff.send_fds 30 [21, 23],
          ZEff.read_int 30, ZEff.send_fd 30 7]) :=
  (connect_companion_probe (cworld 16 0) 7 true ⟨(-1, 5), ⟨0, 0⟩, (0, 1)⟩ (by decide)).1
    (by decide)

/-- C11, as stated, fails when the new companion does not acknowledge: the
cached socket 5 reports POLLHUP, a pair and a process are created, the
acknowledgement read yields -1, and the client descriptor 7 is sent over no
socket at all. -/
theorem stale_respawn_without_send :
    at_abi (⟨(-1, 5), ⟨0, 0⟩, (0, 1)⟩ : ZygiskState).zygiskd_sockets true ≥ 0 ∧
    (cworld 16 (-1)).probe 5 ≠ 0 ∧
    (connect_companion (cworld 16 (-1)) 7 true ⟨(-1, 5), ⟨0, 0⟩, (0, 1)⟩).2
      = [ZEff.poll 5 0, ZEff.close 5, ZEff.socketpair 30 31,
         ZEff.fork_exec "/sbin/magisk64" "31", ZEff.close 31, ZEff.send_fds 30 [21, 23],
         ZEff.read_int 30] ∧
    ZEff.send_fd 30 7
      ∉ (connect_companion (cworld 16 (-1)) 7 true ⟨(-1, 5), ⟨0, 0⟩, (0, 1)⟩).2 := by
  decide

/-- C12, as amended: a fresh spawn stores the new socket in the ABI's slot
before the acknowledgement is read.  When the acknowledgement is not 0 the
client descriptor is not sent and the slot keeps the new socket (it is not
closed and not reset to -1); the next request for that ABI then reuses that
socket when its probe reports nothing and spawns again only when the probe
reports an event. -/
theorem connect_companion_unacknowledged (w : ZygiskWorld) (client : Int)
    (is_64_bit : Bool) (st : ZygiskState) (h : at_abi st.zygiskd_sockets is_64_bit < 0) :
    at_abi (connect_companion w client is_64_bit st).1.zygiskd_sockets is_64_bit
      = w.socketpair.1 ∧
    (w.ack ≠ 0 →
      (connect_companion w client is_64_bit st).2
        = [ZEff.socketpair w.socketpair.1 w.socketpair.2,
           ZEff.fork_exec (w.MAGISKTMP ++ "/magisk" ++ (if is_64_bit then "64" else "32"))
             (toString w.socketpair.2),
           ZEff.close w.socketpair.2,
           ZEff.send_fds w.socketpair.1 (get_module_fds w is_64_bit),
           ZEff.read_int w.socketpair.1]) ∧
    (w.ack = 0 →
      (connect_companion w client is_64_bit st).2
        = [ZEff.socketpair w.socketpair.1 w.socketpair.2,
           ZEff.fork_exec (w.MAGISKTMP ++ "/magisk" ++ (if is_64_bit then "64" else "32"))
             (toString w.socketpair.2),
           ZEff.close w.socketpair.2,
           ZEff.send_fds w.socketpair.1 (get_module_fds w is_64_bit),
           ZEff.read_int w.socketpair.1,
           ZEff.send_fd w.socketpair.1 client]) ∧
    (∀ (w2 : ZygiskWorld) (client2 : Int), w.socketpair.1 ≥ 0 → w2.probe w.socketpair.1 = 0 →
      connect_companion w2 client2 is_64_bit (connect_companion w client is_64_bit st).1
        = ((connect_companion w client is_64_bit st).1,
           [ZEff.poll w.socketpair.1 0, ZEff.send_fd w.socketpair.1 client2])) ∧
    (∀ (w2 : ZygiskWorld) (client2 : Int), w.socketpair.1 ≥ 0 → w2.probe w.socketpair.1 ≠ 0 →
      (connect_companion w2 client2 is_64_bit (connect_companion w client is_64_bit st).1).2.take 3
        = [ZEff.poll w.socketpair.1 0, ZEff.close w.socketpair.1,
           ZEff.socketpair w2.socketpair.1 w2.socketpair.2]) := by
  have hs := connect_companion_spawn w client is_64_bit st h
  have hslot : at_abi (connect_companion w client is_64_bit st).1.zygiskd_sockets is_64_bit
      = w.socketpair.1 := by
    rw [hs]; exact at_abi_set_abi _ _ _
  refine ⟨hslot, ?_, ?_, ?_, ?_⟩
  · intro hack
    rw [hs]; simp [hack]
  · intro hack
    rw [hs]; simp [hack]
  · intro w2 client2 hfd hp
    have := connect_companion_reuse w2 client2 is_64_bit
      (connect_companion w client is_64_bit st).1 (by rw [hslot]; exact hfd)
      (by rw [hslot]; exact hp)
    rw [hslot] at this
    exact this
  · intro w2 client2 hfd hp
    have := connect_companion_stale w2 client2 is_64_bit
      (connect_companion w client is_64_bit st).1 (by rw [hslot]; exact hfd)
      (by rw [hslot]; exact hp)
    rw [hslot] at this
    rw [this]
    rfl

/-- C12 at a first request of the 64-bit ABI whose companion answers 1, and
the next request, whose probe reports nothing. -/
theorem connect_companion_unacknowledged_witness :
    connect_companion (cworld 0 0) 8 true
        (connect_companion (cworld 0 1) 7 true initZygisk).1
      = ((connect_companion (cworld 0 1) 7 true initZygisk).1,
         [ZEff.poll 30 0, ZEff.send_fd 30 8]) :=
  (connect_companion_unacknowledged (cworld 0 1) 7 true initZygisk (by decide)).2.2.2.1
    (cworld 0 0) 8 (by decide) (by decide)

/-- C12, as stated, fails: after a fresh spawn whose acknowledgement is 1 the
slot of the ABI holds the new socket 30, not -1, and nothing was closed but
the far end of the pair. -/
theorem unacknowledged_socket_stays_cached :
    at_abi initZygisk.zygiskd_sockets true < 0 ∧
    (cworld 0 1).ack ≠ 0 ∧
    (connect_companion (cworld 0 1) 7 true initZygisk).1.zygiskd_sockets = (-1, 30) ∧
    ZEff.close 30 ∉ (connect_companion (cworld 0 1) 7 true initZygisk).2 := by
  decide

/-- The bootloop branch of `setup_files` that refuses (lines 290-296): the
ABI had started at least 4 times and the whole seconds elapsed since the
recorded start do not exceed 60. -/
theorem setup_files_refuse (w : ZygiskWorld) (client pid : Int) (st : ZygiskState)
    (hexe : (get_exe w pid).1 = true) (hstart : zygote_started st ≠ 0)
    (hcount : at_abi st.zygote_start_counts (w.str_ends (get_exe w pid).2 "64") ≥ 4)
    (hwin : ¬ w.now.tv_sec - st.last_zygote_start.tv_sec > 60) :
    setup_files w client pid st
      = ({ st with zygiskd_sockets := (-1, -1), zygote_start_counts := (999, 999) },
         [ZEff.close st.zygiskd_sockets.1, ZEff.close st.zygiskd_sockets.2,
          ZEff.write_int client 1]) := by
  have hne : (at_abi st.zygote_start_counts (w.str_ends (get_exe w pid).2 "64") != 0)
      = true := by
    rw [bne_iff_ne]; omega
  have h5 : at_abi st.zygote_start_counts (w.str_ends (get_exe w pid).2 "64") + 1 ≥ 5 := by
    omega
  unfold setup_files
  simp only [hexe, Bool.not_true, Bool.false_eq_true, if_false, if_neg hstart, hne, if_true,
    at_abi_set_abi, if_pos h5, if_neg hwin, List.cons_append, List.nil_append]

/-- The bootloop branch of `setup_files` that resets the window (lines
286-289) and goes on to serve the request. -/
theorem setup_files_reset (w : ZygiskWorld) (client pid : Int) (st : ZygiskState)
    (hexe : (get_exe w pid).1 = true) (hstart : zygote_started st ≠ 0)
    (hcount : at_abi st.zygote_start_counts (w.str_ends (get_exe w pid).2 "64") ≥ 4)
    (hwin : w.now.tv_sec - st.last_zygote_start.tv_sec > 60) :
    setup_files w client pid st
      = ({ st with zygiskd_sockets := (-1, -1), last_zygote_start := w.now,
                   zygote_start_counts := (1, 1) },
         [ZEff.close st.zygiskd_sockets.1, ZEff.close st.zygiskd_sockets.2,
          ZEff.write_int client 0,
          ZEff.send_fd client (if w.str_ends (get_exe w pid).2 "64" then w.app_process_64
            else w.app_process_32),
          ZEff.cp_afc (get_exe w pid).2
            (w.MAGISKTMP ++ "/" ++ w.ZYGISKBIN ++ "/zygisk." ++ w.basename (get_exe w pid).2
              ++ ".1.so"),
          ZEff.cp_afc (get_exe w pid).2
            (w.MAGISKTMP ++ "/" ++ w.ZYGISKBIN ++ "/zygisk." ++ w.basename (get_exe w pid).2
              ++ ".2.so"),
          ZEff.write_string client w.MAGISKTMP]) := by
  have hne : (at_abi st.zygote_start_counts (w.str_ends (get_exe w pid).2 "64") != 0)
      = true := by
    rw [bne_iff_ne]; omega
  have h5 : at_abi st.zygote_start_counts (w.str_ends (get_exe w pid).2 "64") + 1 ≥ 5 := by
    omega
  unfold setup_files
  simp only [hexe, Bool.not_true, Bool.false_eq_true, if_false, if_neg hstart, hne, if_true,
    at_abi_set_abi, if_pos h5, if_pos hwin, List.cons_append, List.nil_append]

/-- The early return of `setup_files` when the caller's executable cannot be
resolved (lines 261-264). -/
theorem setup_files_no_exe (w : ZygiskWorld) (client pid : Int) (st : ZygiskState)
    (hexe : (get_exe w pid).1 = false) :
    setup_files w client pid st = (st, [ZEff.write_int client 1]) := by
  unfold setup_files
  simp [hexe]

/-- One call in the pinned state, within the window: the counters stay
pinned, the recorded start is kept, and the trace is at most two closes
followed by the answer 1. -/
theorem setup_files_pinned (w : ZygiskWorld) (client pid : Int) (st : ZygiskState)
    (hc : st.zygote_start_counts = (999, 999))
    (hwin : w.now.tv_sec - st.last_zygote_start.tv_sec ≤ 60) :
    (setup_files w client pid st).1.zygote_start_counts = (999, 999) ∧
    (setup_files w client pid st).1.last_zygote_start = st.last_zygote_start ∧
    ZEff.write_int client 1 ∈ (setup_files w client pid st).2 ∧
    (∀ e ∈ (setup_files w client pid st).2,
      e = ZEff.write_int client 1 ∨ ∃ fd, e = ZEff.close fd) := by
  cases hexe : (get_exe w pid).1 with
  | false =>
    rw [setup_files_no_exe w client pid st hexe]
    simp [hc]
  | true =>
    have hstart : zygote_started st ≠ 0 := by
      unfold zygote_started; rw [hc]; decide
    have hcount : at_abi st.zygote_start_counts (w.str_ends (get_exe w pid).2 "64") ≥ 4 := by
      rw [hc]; unfold at_abi; split <;> decide
    rw [setup_files_refuse w client pid st hexe hstart hcount (by omega)]
    simp

/-- C13: starting from counters 0, five `setup_files` calls of the 64-bit ABI
at 0, 10, 20, 30 and 40 s leave both counters pinned at 999 with recorded start
0; a sixth call at 45 s is answered 1 and is sent no descriptor and no path; a
sixth call at 130 s instead sets the recorded start to 130 s and both counters
to 1 and is answered 0 followed by the descriptor and the path.  In general
the call that takes an ABI's counter to 5 within the window pins both
counters, and from the pinned state every run of calls that all fall within
60 s of the recorded start is refused call by call. -/
theorem bootloop_window :
    (setup_files_calls [(zworld true 0 0, 7, 1), (zworld true 10 0, 7, 1),
        (zworld true 20 0, 7, 1), (zworld true 30 0, 7, 1), (zworld true 40 0, 7, 1)]
        initZygisk).1 = ⟨(-1, -1), ⟨0, 0⟩, (999, 999)⟩ ∧
    setup_files (zworld true 45 0) 7 1 ⟨(-1, -1), ⟨0, 0⟩, (999, 999)⟩
      = (⟨(-1, -1), ⟨0, 0⟩, (999, 999)⟩,
         [ZEff.close (-1), ZEff.close (-1), ZEff.write_int 7 1]) ∧
    setup_files (zworld true 130 0) 7 1 ⟨(-1, -1), ⟨0, 0⟩, (999, 999)⟩
      = (⟨(-1, -1), ⟨130, 0⟩, (1, 1)⟩,
         [ZEff.close (-1), ZEff.close (-1), ZEff.write_int 7 0, ZEff.send_fd 7 11,
          ZEff.cp_afc "/system/bin/app_process64"
            "/sbin/.magisk/zygisk/zygisk.app_process64.1.so",
          ZEff.cp_afc "/system/bin/app_process64"
            "/sbin/.magisk/zygisk/zygisk.app_process64.2.so",
          ZEff.write_string 7 "/sbin"]) ∧
    (∀ (w : ZygiskWorld) (client pid : Int) (st : ZygiskState),
      (get_exe w pid).1 = true → zygote_started st ≠ 0 →
      at_abi st.zygote_start_counts (w.str_ends (get_exe w pid).2 "64") = 4 →
      w.now.tv_sec - st.last_zygote_start.tv_sec ≤ 60 →
      setup_files w client pid st
        = ({ st with zygiskd_sockets := (-1, -1), zygote_start_counts := (999, 999) },
           [ZEff.close st.zygiskd_sockets.1, ZEff.close st.zygiskd_sockets.2,
            ZEff.write_int client 1])) ∧
    (∀ (calls : List (ZygiskWorld × Int × Int)) (st : ZygiskState),
      st.zygote_start_counts = (999, 999) →
      (∀ c ∈ calls, c.1.now.tv_sec - st.last_zygote_start.tv_sec ≤ 60) →
      (setup_files_calls calls st).1.zygote_start_counts = (999, 999) ∧
      (setup_files_calls calls st).1.last_zygote_start = st.last_zygote_start ∧
      List.Forall₂ (fun c tr => ZEff.write_int c.2.1 1 ∈ tr ∧
          ∀ e ∈ tr, e = ZEff.write_int c.2.1 1 ∨ ∃ fd, e = ZEff.close fd)
        calls (setup_files_calls calls st).2) := by
  refine ⟨by decide, by decide, by decide, ?_, ?_⟩
  · intro w client pid st hexe hstart hcount hwin
    exact setup_files_refuse w client pid st hexe hstart (by omega) (by omega)
  · intro calls
    induction calls with
    | nil =>
      intro st hc _
      simp [setup_files_calls, hc]
    | cons c rest ih =>
      intro st hc hwin
      obtain ⟨w, client, pid⟩ := c
      have hw : w.now.tv_sec - st.last_zygote_start.tv_sec ≤ 60 :=
        hwin (w, client, pid) (List.mem_cons_self _ _)
      obtain ⟨h1, h2, h3, h4⟩ := setup_files_pinned w client pid st hc hw
      have hrest := ih (setup_files w client pid st).1 h1 (by
        intro c hcmem
        rw [h2]
        exact hwin c (List.mem_cons_of_mem _ hcmem))
      simp only [setup_files_calls]
      refine ⟨hrest.1, ?_, ?_⟩
      · rw [hrest.2.1, h2]
      · exact List.Forall₂.cons ⟨h3, h4⟩ hrest.2.2

/-- C13 at two further calls, one of each ABI, at 50 s and 59 s after five
starts in the first 40 s. -/
theorem bootloop_window_witness :
    (setup_files_calls [(zworld false 50 0, 8, 2), (zworld true 59 0, 9, 3)]
        ⟨(-1, -1), ⟨0, 0⟩, (999, 999)⟩).1.zygote_start_counts = (999, 999) :=
  (bootloop_window.2.2.2.2 [(zworld false 50 0, 8, 2), (zworld true 59 0, 9, 3)]
    ⟨(-1, -1), ⟨0, 0⟩, (999, 999)⟩ rfl (by decide)).1

/-! ## Consent channel -/

/-- C14: `app_request` waits on the fifo with a timeout of 70 000 ms.  When
`xpoll` returns 0 or less it closes the descriptor it opened and returns -1;
otherwise it returns that descriptor without closing it; and "returns -1
after a close" happens in the first case only.  On both paths the last effect
before the return is the `unlink` of the fifo path. -/
theorem app_request_outcome (w : SuWorld) (info : SuInfo) :
    (w.xpoll ≤ 0 →
      app_request w info
        = (-1,
           [SuEff.mkfifo ("/dev/socket/" ++ w.rand) 0o600,
            SuEff.chown ("/dev/socket/" ++ w.rand) info.mgr_uid info.mgr_gid,
            SuEff.setfilecon ("/dev/socket/" ++ w.rand)
              ("u:object_r:" ++ w.SEPOL_FILE_TYPE ++ ":s0"),
            SuEff.exec_cmd "request" [Extra.str "fifo" ("/dev/socket/" ++ w.rand),
              Extra.int "uid" info.eval_uid] false,
            SuEff.xopen ("/dev/socket/" ++ w.rand),
            SuEff.xpoll w.xopen w.POLL_IN 70000,
            SuEff.close w.xopen,
            SuEff.unlink ("/dev/socket/" ++ w.rand)])) ∧
    (0 < w.xpoll →
      app_request w info
        = (w.xopen,
           [SuEff.mkfifo ("/dev/socket/" ++ w.rand) 0o600,
            SuEff.chown ("/dev/socket/" ++ w.rand) info.mgr_uid info.mgr_gid,
            SuEff.setfilecon ("/dev/socket/" ++ w.rand)
              ("u:object_r:" ++ w.SEPOL_FILE_TYPE ++ ":s0"),
            SuEff.exec_cmd "request" [Extra.str "fifo" ("/dev/socket/" ++ w.rand),
              Extra.int "uid" info.eval_uid] false,
            SuEff.xopen ("/dev/socket/" ++ w.rand),
            SuEff.xpoll w.xopen w.POLL_IN 70000,
            SuEff.unlink ("/dev/socket/" ++ w.rand)])) ∧
    (((app_request w info).1 = -1 ∧ SuEff.close w.xopen ∈ (app_request w info).2)
      ↔ w.xpoll ≤ 0) ∧
    (app_request w info).2.getLast? = some (SuEff.unlink ("/dev/socket/" ++ w.rand)) := by
  by_cases h : w.xpoll ≤ 0
  · have e : app_request w info
        = (-1,
           [SuEff.mkfifo ("/dev/socket/" ++ w.rand) 0o600,
            SuEff.chown ("/dev/socket/" ++ w.rand) info.mgr_uid info.mgr_gid,
            SuEff.setfilecon ("/dev/socket/" ++ w.rand)
              ("u:object_r:" ++ w.SEPOL_FILE_TYPE ++ ":s0"),
            SuEff.exec_cmd "request" [Extra.str "fifo" ("/dev/socket/" ++ w.rand),
              Extra.int "uid" info.eval_uid] false,
            SuEff.xopen ("/dev/socket/" ++ w.rand),
            SuEff.xpoll w.xopen w.POLL_IN 70000,
            SuEff.close w.xopen,
            SuEff.unlink ("/dev/socket/" ++ w.rand)]) := by
      unfold app_request
      simp [h]
    refine ⟨fun _ => e, fun h2 => absurd h2 (by omega), ?_, ?_⟩
    · rw [e]; simp [h]
    · rw [e]; simp
  · have e : app_request w info
        = (w.xopen,
           [SuEff.mkfifo ("/dev/socket/" ++ w.rand) 0o600,
            SuEff.chown ("/dev/socket/" ++ w.rand) info.mgr_uid info.mgr_gid,
            SuEff.setfilecon ("/dev/socket/" ++ w.rand)
              ("u:object_r:" ++ w.SEPOL_FILE_TYPE ++ ":s0"),
            SuEff.exec_cmd "request" [Extra.str "fifo" ("/dev/socket/" ++ w.rand),
              Extra.int "uid" info.eval_uid] false,
            SuEff.xopen ("/dev/socket/" ++ w.rand),
            SuEff.xpoll w.xopen w.POLL_IN 70000,
            SuEff.unlink ("/dev/socket/" ++ w.rand)]) := by
      unfold app_request
      simp [h]
    refine ⟨fun h2 => absurd h2 h, fun _ => e, ?_, ?_⟩
    · rw [e]; simp [h]
    · rw [e]; simp

/-- C14 at a wait that times out (`xpoll` returns 0) on a fifo opened as 12. -/
theorem app_request_outcome_witness :
    (app_request (suWorld 0) ⟨10123, 10123, 10200⟩).1 = -1 ∧
    SuEff.close 12 ∈ (app_request (suWorld 0) ⟨10123, 10123, 10200⟩).2 :=
  have h := (app_request_outcome (suWorld 0) ⟨10123, 10123, 10200⟩).1 (by decide)
  ⟨by rw [h], by rw [h]; decide⟩

/-! ## The pass of `poll_loop` over the vector -/

/-- After `erase(fd)` the map has no callback for `fd`. -/
theorem map_find_erase (m : List (Int × poll_callback)) (fd : Int) :
    map_find (map_erase m fd) fd = none := by
  induction m with
  | nil => rfl
  | cons e m ih =>
    unfold map_erase map_find at *
    by_cases h : e.1 = fd
    · simp [List.filter_cons, h]
    · simp [List.filter_cons, h, List.find?_cons]

/-- Erasing slot `i` moves the slot that followed it to index `i`. -/
theorem get?_eraseIdx_self (l : List Pollfd) (i : Nat) :
    (l.eraseIdx i).get? i = l.get? (i + 1) := by
  induction l generalizing i with
  | nil => simp
  | cons a l ih =>
    cases i with
    | zero => simp
    | succ j => simpa using ih j

/-- The slot right after a prefix. -/
theorem get?_after (done rest : List Pollfd) (p : Pollfd) :
    (done ++ p :: rest).get? done.length = some p := by
  induction done with
  | nil => rfl
  | cons a done ih => simpa using ih

/-- Erasing the slot right after a prefix. -/
theorem eraseIdx_after (done rest : List Pollfd) (p : Pollfd) :
    (done ++ p :: rest).eraseIdx done.length = done ++ rest := by
  induction done with
  | nil => rfl
  | cons a done ih => simpa using ih

/-- The turn of the loop at a slot that reports no error: the index advances,
and the vector is what the callback, if one runs, leaves. -/
theorem poll_loop_step_keep (run : poll_callback → Nat → PollState → PollState) (i : Nat)
    (s : PollState) (pfd : Pollfd) (hget : s.poll_fds.get? i = some pfd)
    (herr : is_error pfd.revents = false) :
    (poll_loop_step run i s).1 = i + 1 ∧
    ((∀ cb j t, (run cb j t).poll_fds = t.poll_fds) →
      (poll_loop_step run i s).2.poll_fds = s.poll_fds) := by
  unfold poll_loop_step
  rw [hget]
  simp only [herr, Bool.false_eq_true, if_false]
  by_cases h0 : pfd.revents ≠ 0
  · rw [if_pos h0]
    cases map_find s.poll_map pfd.fd with
    | none => exact ⟨rfl, fun _ => rfl⟩
    | some cb => exact ⟨rfl, fun hrun => hrun cb i s⟩
  · rw [if_neg h0]
    exact ⟨rfl, fun _ => rfl⟩

/-- The pass from the end of a prefix, with callbacks that leave the vector
alone and enough fuel: it ends, it keeps the prefix and the remaining slots
that report no error, and it examines each remaining slot once, in order. -/
theorem poll_pass_from (run : poll_callback → Nat → PollState → PollState)
    (hrun : ∀ cb j t, (run cb j t).poll_fds = t.poll_fds) (rest : List Pollfd) :
    ∀ (done : List Pollfd) (s : PollState) (fuel : Nat), s.poll_fds = done ++ rest →
      rest.length ≤ fuel →
      (∃ s2, poll_pass run fuel done.length s = some s2 ∧
        s2.poll_fds = done ++ rest.filter (fun p => !is_error p.revents)) ∧
      poll_pass_visits run fuel done.length s = rest := by
  induction rest with
  | nil =>
    intro done s fuel hs _
    have hlen : ¬ done.length < s.poll_fds.length := by rw [hs]; simp
    have hget : s.poll_fds.get? done.length = none := by
      rw [hs]; simp
    cases fuel with
    | zero =>
      refine ⟨⟨s, ?_, by simpa using hs⟩, rfl⟩
      simp only [poll_pass, if_neg hlen]
    | succ f =>
      refine ⟨⟨s, ?_, by simpa using hs⟩, ?_⟩
      · simp only [poll_pass, if_neg hlen]
      · simp only [poll_pass_visits, hget]
  | cons p rest ih =>
    intro done s fuel hs hfuel
    cases fuel with
    | zero => simp at hfuel
    | succ f =>
      have hf : rest.length ≤ f := by simpa using hfuel
      have hlen : done.length < s.poll_fds.length := by rw [hs]; simp
      have hget : s.poll_fds.get? done.length = some p := by
        rw [hs]; exact get?_after done rest p
      simp only [poll_pass, if_pos hlen, poll_pass_visits, hget]
      cases herr : is_error p.revents with
      | true =>
        rw [poll_loop_step_error run done.length s p hget herr]
        have hs2 : ({ s with poll_map := map_erase s.poll_map p.fd,
                             poll_fds := s.poll_fds.eraseIdx done.length } : PollState).poll_fds
            = done ++ rest := by
          simp only [hs]; exact eraseIdx_after done rest p
        obtain ⟨⟨s2, h1, h2⟩, h3⟩ := ih done _ f hs2 hf
        refine ⟨⟨s2, h1, ?_⟩, ?_⟩
        · rw [h2]; simp [List.filter_cons, herr]
        · rw [h3]
      | false =>
        obtain ⟨k1, k2⟩ := poll_loop_step_keep run done.length s p hget herr
        have hs2 : (poll_loop_step run done.length s).2.poll_fds = (done ++ [p]) ++ rest := by
          rw [k2 hrun, hs]; simp
        have hidx : (poll_loop_step run done.length s).1 = (done ++ [p]).length := by
          rw [k1]; simp
        obtain ⟨⟨s2, h1, h2⟩, h3⟩ := ih (done ++ [p]) _ f hs2 hf
        rw [hidx]
        refine ⟨⟨s2, h1, ?_⟩, ?_⟩
        · rw [h2]; simp [List.filter_cons, herr]
        · rw [h3]

/-- C15: at an entry whose revents has POLLERR or POLLNVAL, a turn of the
loop of `poll_loop` erases the entry from `poll_fds` and its fd from
`poll_map`, whatever the callbacks are (none is run), and stays at the same
index, which now holds the entry that followed; at any other entry the index
advances by one.  Hence a whole pass, with callbacks that leave `poll_fds`
alone, ends with exactly the entries that reported no error and examines
every entry of the vector once, in order. -/
theorem poll_pass_purges (run : poll_callback → Nat → PollState → PollState)
    (s : PollState) :
    (∀ i pfd, s.poll_fds.get? i = some pfd → is_error pfd.revents = true →
      poll_loop_step run i s
        = (i, { s with poll_map := map_erase s.poll_map pfd.fd,
                       poll_fds := s.poll_fds.eraseIdx i }) ∧
      map_find (map_erase s.poll_map pfd.fd) pfd.fd = none ∧
      (s.poll_fds.eraseIdx i).get? i = s.poll_fds.get? (i + 1)) ∧
    (∀ i pfd, s.poll_fds.get? i = some pfd → is_error pfd.revents = false →
      (poll_loop_step run i s).1 = i + 1) ∧
    ((∀ cb j t, (run cb j t).poll_fds = t.poll_fds) →
      (∃ s2, poll_pass run s.poll_fds.length 0 s = some s2 ∧
        s2.poll_fds = s.poll_fds.filter (fun p => !is_error p.revents)) ∧
      poll_pass_visits run s.poll_fds.length 0 s = s.poll_fds) := by
  refine ⟨?_, ?_, ?_⟩
  · intro i pfd hget herr
    exact ⟨poll_loop_step_error run i s pfd hget herr, map_find_erase _ _,
      get?_eraseIdx_self _ _⟩
  · intro i pfd hget herr
    exact (poll_loop_step_keep run i s pfd hget herr).1
  · intro hrun
    have h := poll_pass_from run hrun s.poll_fds [] s s.poll_fds.length rfl (le_refl _)
    simpa using h

/-- C15 at the sample multiplexer, whose third entry reports POLLERR. -/
theorem poll_pass_purges_witness :
    (∃ s2, poll_pass (fun _ _ t => t) 3 0 samplePoll = some s2 ∧
      s2.poll_fds = [⟨4, 1, 0⟩, ⟨3, 1, 0⟩]) ∧
    poll_pass_visits (fun _ _ t => t) 3 0 samplePoll = [⟨4, 1, 0⟩, ⟨3, 1, 0⟩, ⟨9, 1, 8⟩] :=
  (poll_pass_purges (fun _ _ t => t) samplePoll).2.2 (fun _ _ _ => rfl)

/-- A turn of the loop issues no close unless the callback it runs does. -/
theorem poll_loop_step_closed (run : poll_callback → Nat → PollState → PollState)
    (hrun : ∀ cb j t, (run cb j t).closed = t.closed) (i : Nat) (s : PollState) :
    (poll_loop_step run i s).2.closed = s.closed := by
  unfold poll_loop_step
  cases s.poll_fds.get? i with
  | none => rfl
  | some pfd =>
    simp only
    split_ifs
    · rfl
    · cases map_find s.poll_map pfd.fd with
      | none => rfl
      | some cb => exact hrun cb i s
    · rfl

/-- A pass issues no close unless a callback does. -/
theorem poll_pass_closed (run : poll_callback → Nat → PollState → PollState)
    (hrun : ∀ cb j t, (run cb j t).closed = t.closed) :
    ∀ (fuel i : Nat) (s s2 : PollState), poll_pass run fuel i s = some s2 →
      s2.closed = s.closed := by
  intro fuel
  induction fuel with
  | zero =>
    intro i s s2 h
    simp only [poll_pass] at h
    split_ifs at h
    simp only [Option.some.injEq] at h
    rw [← h]
  | succ f ih =>
    intro i s s2 h
    simp only [poll_pass] at h
    split_ifs at h
    · rw [ih _ _ _ h, poll_loop_step_closed run hrun]
    · simp only [Option.some.injEq] at h
      rw [← h]

/-- C16, as amended: the purge of an entry whose revents has POLLERR or
POLLNVAL erases it from `poll_fds` and `poll_map` and issues no `close`: the
log of closes is the same after the turn as before, and a whole pass closes
nothing unless a callback does. -/
theorem purge_issues_no_close (run : poll_callback → Nat → PollState → PollState)
    (s : PollState) :
    (∀ i pfd, s.poll_fds.get? i = some pfd → is_error pfd.revents = true →
      (poll_loop_step run i s).2.closed = s.closed ∧
      (poll_loop_step run i s).2.poll_fds = s.poll_fds.eraseIdx i) ∧
    ((∀ cb j t, (run cb j t).closed = t.closed) →
      ∀ fuel s2, poll_pass run fuel 0 s = some s2 → s2.closed = s.closed) := by
  refine ⟨?_, ?_⟩
  · intro i pfd hget herr
    rw [poll_loop_step_error run i s pfd hget herr]
    exact ⟨rfl, rfl⟩
  · intro hrun fuel s2 h
    exact poll_pass_closed run hrun fuel 0 s s2 h

/-- C16 at the sample multiplexer: the turn at its third entry. -/
theorem purge_issues_no_close_witness :
    (poll_loop_step (fun _ _ t => t) 2 samplePoll).2.closed = [] ∧
    (poll_loop_step (fun _ _ t => t) 2 samplePoll).2.poll_fds = [⟨4, 1, 0⟩, ⟨3, 1, 0⟩] :=
  (purge_issues_no_close (fun _ _ t => t) samplePoll).1 2 ⟨9, 1, 8⟩ (by decide) (by decide)

/-- C16, as stated, fails: the pass over the sample multiplexer purges the
entry of fd 9, which reports POLLERR, and `close(9)` is issued zero times. -/
theorem purged_fd_left_open :
    is_error (8 : Int) = true ∧
    poll_pass (fun _ _ t => t) 3 0 samplePoll
      = some ⟨[⟨4, 1, 0⟩, ⟨3, 1, 0⟩], [(3, 200), (4, 100)], [], []⟩ ∧
    (∀ s2, poll_pass (fun _ _ t => t) 3 0 samplePoll = some s2 → s2.closed.count 9 = 0) := by
  refine ⟨by decide, by decide, ?_⟩
  intro s2 h
  have e : poll_pass (fun _ _ t => t) 3 0 samplePoll
      = some ⟨[⟨4, 1, 0⟩, ⟨3, 1, 0⟩], [(3, 200), (4, 100)], [], []⟩ := by decide
  rw [e] at h
  simp only [Option.some.injEq] at h
  rw [← h]
  rfl

/-- Invalidation keeps the length of the vector. -/
theorem invalidate_length (fd : Int) (auto_close : Bool) (l : List Pollfd) :
    (invalidate fd auto_close l).1.length = l.length := by
  induction l with
  | nil => rfl
  | cons a l ih =>
    unfold invalidate
    by_cases h : a.fd = fd
    · rw [if_pos h]; rfl
    · rw [if_neg h]; simp [ih]

/-- Invalidation overwrites the fd of the first matching slot and nothing else. -/
theorem invalidate_get_exact (fd : Int) (auto_close : Bool) (l : List Pollfd) (i : Nat)
    (p : Pollfd) (h : l.get? i = some p) :
    (invalidate fd auto_close l).1.get? i
      = some (if i = l.findIdx (fun q => q.fd == fd) then { p with fd := -1 } else p) := by
  induction l generalizing i with
  | nil => simp at h
  | cons a l ih =>
    unfold invalidate
    by_cases ha : a.fd = fd
    · rw [if_pos ha]
      have hb : (a.fd == fd) = true := by simp [ha]
      have hidx : (a :: l).findIdx (fun q => q.fd == fd) = 0 := by
        simp [List.findIdx_cons, hb]
      rw [hidx]
      cases i with
      | zero =>
        simp only [List.get?_cons_zero, Option.some.injEq] at h
        simp [h]
      | succ j =>
        simp only [List.get?_cons_succ] at h
        rw [List.get?_cons_succ, h]
        simp
    · rw [if_neg ha]
      have hb : (a.fd == fd) = false := by simp [ha]
      have hidx : (a :: l).findIdx (fun q => q.fd == fd)
          = l.findIdx (fun q => q.fd == fd) + 1 := by
        simp [List.findIdx_cons, hb]
      rw [hidx]
      cases i with
      | zero =>
        simp only [List.get?_cons_zero, Option.some.injEq] at h
        simp [h]
      | succ j =>
        simp only [List.get?_cons_succ] at h
        rw [List.get?_cons_succ, ih j h]
        simp

/-- Invalidation closes `fd` once when asked to and a slot matches. -/
theorem invalidate_closes_exact (fd : Int) (auto_close : Bool) (l : List Pollfd) :
    (invalidate fd auto_close l).2
      = if auto_close && l.any (fun q => q.fd == fd) then [fd] else [] := by
  induction l with
  | nil => simp [invalidate]
  | cons a l ih =>
    unfold invalidate
    by_cases ha : a.fd = fd
    · rw [if_pos ha]
      cases auto_close <;> simp [ha]
    · rw [if_neg ha, ih]
      simp [ha]

/-- Unfolding of `map_erase` on a non-empty map. -/
theorem map_erase_cons (e : Int × poll_callback) (m : List (Int × poll_callback)) (fd : Int) :
    map_erase (e :: m) fd = if e.1 = fd then map_erase m fd else e :: map_erase m fd := by
  unfold map_erase
  by_cases h : e.1 = fd
  · simp [List.filter_cons, h]
  · simp [List.filter_cons, h]

/-- Unfolding of `map_find` on a non-empty map. -/
theorem map_find_cons (e : Int × poll_callback) (m : List (Int × poll_callback)) (fd : Int) :
    map_find (e :: m) fd = if e.1 = fd then some e.2 else map_find m fd := by
  unfold map_find
  by_cases h : e.1 = fd
  · simp [List.find?_cons, h]
  · simp [List.find?_cons, h]

/-- Erasing `fd` from the map leaves the callbacks of the other keys. -/
theorem map_find_erase_ne (m : List (Int × poll_callback)) (fd fd2 : Int) (h : fd2 ≠ fd) :
    map_find (map_erase m fd) fd2 = map_find m fd2 := by
  induction m with
  | nil => rfl
  | cons e m ih =>
    rw [map_erase_cons, map_find_cons]
    by_cases h1 : e.1 = fd
    · have h2 : ¬ e.1 = fd2 := by rw [h1]; exact fun x => h x.symm
      rw [if_pos h1, if_neg h2, ih]
    · rw [if_neg h1, map_find_cons, ih]

/-- C17: on the owning thread `unregister_poll(fd, auto_close)` keeps the
length of `poll_fds` and every entry but the first one whose fd is `fd`, which
gets fd -1; it closes `fd` (the descriptor, not the sentinel) exactly when
`auto_close` is set and such an entry exists; and it erases `fd`, and only
`fd`, from `poll_map`. -/
theorem unregister_poll_in_place (fd : Int) (auto_close : Bool) (s : PollState) :
    (unregister_poll true fd auto_close s).poll_fds.length = s.poll_fds.length ∧
    (∀ i p, s.poll_fds.get? i = some p →
      (unregister_poll true fd auto_close s).poll_fds.get? i
        = some (if i = s.poll_fds.findIdx (fun q => q.fd == fd)
            then { p with fd := -1 } else p)) ∧
    (unregister_poll true fd auto_close s).closed
      = s.closed ++ (if auto_close && s.poll_fds.any (fun q => q.fd == fd) then [fd] else []) ∧
    map_find (unregister_poll true fd auto_close s).poll_map fd = none ∧
    (∀ fd2, fd2 ≠ fd →
      map_find (unregister_poll true fd auto_close s).poll_map fd2
        = map_find s.poll_map fd2) ∧
    (unregister_poll true fd auto_close s).ctrl = s.ctrl := by
  refine ⟨?_, ?_, ?_, ?_, ?_, rfl⟩
  · simp only [unregister_poll, if_true]
    exact invalidate_length fd auto_close s.poll_fds
  · intro i p h
    simp only [unregister_poll, if_true]
    exact invalidate_get_exact fd auto_close s.poll_fds i p h
  · simp only [unregister_poll, if_true]
    rw [invalidate_closes_exact]
  · simp only [unregister_poll, if_true]
    exact map_find_erase _ _
  · intro fd2 h
    simp only [unregister_poll, if_true]
    exact map_find_erase_ne _ _ _ h

/-- C17 at the idle multiplexer: unregistering fd 3 with auto_close. -/
theorem unregister_poll_in_place_witness :
    (unregister_poll true 3 true idlePoll).poll_fds.get? 1 = some ⟨-1, 1, 0⟩ ∧
    (unregister_poll true 3 true idlePoll).poll_fds.get? 2 = some ⟨9, 1, 0⟩ ∧
    map_find (unregister_poll true 3 true idlePoll).poll_map 9 = some 300 :=
  have h := unregister_poll_in_place 3 true idlePoll
  ⟨h.2.1 1 ⟨3, 1, 0⟩ (by decide), h.2.1 2 ⟨9, 1, 0⟩ (by decide),
   (h.2.2.2.2.1 9 (by decide)).trans (by decide)⟩

/-- The vector after poll keeps a slot with a negative fd, with revents 0. -/
theorem sys_poll_negative (f : Pollfd → Int) (l : List Pollfd) (p : Pollfd) (h : p ∈ l)
    (hneg : p.fd < 0) : { p with revents := 0 } ∈ sys_poll f l := by
  unfold sys_poll
  rw [List.mem_map]
  exact ⟨p, h, by simp [hneg]⟩

/-- A slot with a negative fd outlives a turn of the outer loop, whatever the
kernel reports for the other slots, when the callbacks leave the vector alone. -/
theorem tombstone_kept (run : poll_callback → Nat → PollState → PollState)
    (hrun : ∀ cb j t, (run cb j t).poll_fds = t.poll_fds) (f : Pollfd → Int)
    (s : PollState) (p : Pollfd) (h : p ∈ s.poll_fds) (hneg : p.fd < 0) :
    ∃ s2, poll_iteration run (some f) s.poll_fds.length s = some s2 ∧
      { p with revents := 0 } ∈ s2.poll_fds := by
  have hmem := sys_poll_negative f s.poll_fds p h hneg
  unfold poll_iteration
  simp only
  split_ifs
  · exact ⟨_, rfl, hmem⟩
  · have hlen : (sys_poll f s.poll_fds).length = s.poll_fds.length := by
      simp [sys_poll]
    obtain ⟨⟨s2, h1, h2⟩, -⟩ := poll_pass_from run hrun (sys_poll f s.poll_fds) []
      { s with poll_fds := sys_poll f s.poll_fds } s.poll_fds.length rfl (by rw [hlen])
    refine ⟨s2, h1, ?_⟩
    rw [h2]
    simp only [List.nil_append, List.mem_filter]
    exact ⟨hmem, by decide⟩

/-- C18 evaluated: `unregister_poll(9, true)` on the idle multiplexer leaves a
slot with fd -1; a turn of the outer loop in which the main socket is
readable ends with that slot still in `poll_fds`, and so does the next one. -/
theorem tombstone_survives_iteration :
    (unregister_poll true 9 true idlePoll).poll_fds = [⟨4, 1, 0⟩, ⟨3, 1, 0⟩, ⟨-1, 1, 0⟩] ∧
    poll_iteration (fun _ _ t => t) (some (fun p => if p.fd = 3 then 1 else 0)) 3
        (unregister_poll true 9 true idlePoll)
      = some ⟨[⟨4, 1, 0⟩, ⟨3, 1, 1⟩, ⟨-1, 1, 0⟩], [(3, 200), (4, 100)], [], [9]⟩ ∧
    poll_iteration (fun _ _ t => t) (some (fun p => if p.fd = 4 then 1 else 0)) 3
        ⟨[⟨4, 1, 0⟩, ⟨3, 1, 1⟩, ⟨-1, 1, 0⟩], [(3, 200), (4, 100)], [], [9]⟩
      = some ⟨[⟨4, 1, 1⟩, ⟨3, 1, 0⟩, ⟨-1, 1, 0⟩], [(3, 200), (4, 100)], [], [9]⟩ := by
  decide

/-! ## Restart counters of `setup_files` -/

/-- C19, as amended: when the call takes the initializing ABI's counter to 5
or more, `setup_files` resets the window (recorded start := now, counters :=
1) and serves the request if and only if the difference of the whole seconds
(`tv_sec`) of now and of the recorded start is more than 60; nanoseconds play
no part; otherwise it pins both counters to 999 and answers 1. -/
theorem bootloop_seconds_only (w : ZygiskWorld) (client pid : Int) (st : ZygiskState)
    (hexe : (get_exe w pid).1 = true) (hstart : zygote_started st ≠ 0)
    (hcount : at_abi st.zygote_start_counts (w.str_ends (get_exe w pid).2 "64") + 1 ≥ 5) :
    (w.now.tv_sec - st.last_zygote_start.tv_sec > 60 →
      (setup_files w client pid st).1
        = { st with zygiskd_sockets := (-1, -1), last_zygote_start := w.now,
                    zygote_start_counts := (1, 1) } ∧
      ZEff.write_int client 0 ∈ (setup_files w client pid st).2 ∧
      ZEff.write_string client w.MAGISKTMP ∈ (setup_files w client pid st).2) ∧
    (¬ w.now.tv_sec - st.last_zygote_start.tv_sec > 60 →
      setup_files w client pid st
        = ({ st with zygiskd_sockets := (-1, -1), zygote_start_counts := (999, 999) },
           [ZEff.close st.zygiskd_sockets.1, ZEff.close st.zygiskd_sockets.2,
            ZEff.write_int client 1])) ∧
    ((setup_files w client pid st).1.zygote_start_counts = (1, 1)
      ↔ w.now.tv_sec - st.last_zygote_start.tv_sec > 60) := by
  have h4 : at_abi st.zygote_start_counts (w.str_ends (get_exe w pid).2 "64") ≥ 4 := by omega
  refine ⟨?_, ?_, ?_⟩
  · intro hw
    rw [setup_files_reset w client pid st hexe hstart h4 hw]
    simp
  · intro hw
    exact setup_files_refuse w client pid st hexe hstart h4 hw
  · by_cases hw : w.now.tv_sec - st.last_zygote_start.tv_sec > 60
    · rw [setup_files_reset w client pid st hexe hstart h4 hw]
      simp [hw]
    · rw [setup_files_refuse w client pid st hexe hstart h4 hw]
      simp [hw]

/-- C19 at a fifth start of the 64-bit ABI 61 whole seconds after the
recorded start. -/
theorem bootloop_seconds_only_witness :
    (setup_files (zworld true 61 0) 7 1 ⟨(-1, -1), ⟨0, 999999999⟩, (0, 4)⟩).1
      = ⟨(-1, -1), ⟨61, 0⟩, (1, 1)⟩ :=
  ((bootloop_seconds_only (zworld true 61 0) 7 1 ⟨(-1, -1), ⟨0, 999999999⟩, (0, 4)⟩
    (by decide) (by decide) (by decide)).1 (by decide)).1

/-- C19, as stated, fails: a fifth start of the 64-bit ABI 60.9 s after the
recorded start, which is more than 60 s on the full timestamps, is refused and
pins the counters, the whole seconds differing by 60 only. -/
theorem nanoseconds_ignored :
    ((zworld true 60 900000000).now.tv_sec * 1000000000
        + (zworld true 60 900000000).now.tv_nsec)
      - ((0 : Int) * 1000000000 + 0) > 60 * 1000000000 ∧
    setup_files (zworld true 60 900000000) 7 1 ⟨(-1, -1), ⟨0, 0⟩, (0, 4)⟩
      = (⟨(-1, -1), ⟨0, 0⟩, (999, 999)⟩,
         [ZEff.close (-1), ZEff.close (-1), ZEff.write_int 7 1]) := by
  decide

/-- C20, as amended: `setup_files` tears the cached companion sockets down
when the initializing ABI's own counter is non-zero: both are closed and set
to -1.  When that counter is 0 the sockets are left as they are and nothing is
closed, even if the other ABI has started before.  In both cases the ABI's
counter is incremented, and the new value stays unless it reaches 5. -/
theorem setup_files_teardown (w : ZygiskWorld) (client pid : Int) (st : ZygiskState)
    (hexe : (get_exe w pid).1 = true) :
    (at_abi st.zygote_start_counts (w.str_ends (get_exe w pid).2 "64") ≠ 0 →
      (setup_files w client pid st).1.zygiskd_sockets = (-1, -1) ∧
      (setup_files w client pid st).2.take 2
        = [ZEff.close st.zygiskd_sockets.1, ZEff.close st.zygiskd_sockets.2]) ∧
    (at_abi st.zygote_start_counts (w.str_ends (get_exe w pid).2 "64") = 0 →
      (setup_files w client pid st).1.zygiskd_sockets = st.zygiskd_sockets ∧
      ∀ fd, ZEff.close fd ∉ (setup_files w client pid st).2) ∧
    (at_abi st.zygote_start_counts (w.str_ends (get_exe w pid).2 "64") + 1 < 5 →
      (setup_files w client pid st).1.zygote_start_counts
        = set_abi st.zygote_start_counts (w.str_ends (get_exe w pid).2 "64")
            (at_abi st.zygote_start_counts (w.str_ends (get_exe w pid).2 "64") + 1)) := by
  refine ⟨?_, ?_, ?_⟩
  · intro hne
    have hb : (at_abi st.zygote_start_counts (w.str_ends (get_exe w pid).2 "64") != 0)
        = true := by
      rw [bne_iff_ne]; exact hne
    unfold setup_files
    simp only [hexe, Bool.not_true, Bool.false_eq_true, if_false, at_abi_set_abi]
    by_cases hs : zygote_started st = 0
    · simp only [if_pos hs, hb, if_true]
      split_ifs <;> simp
    · simp only [if_neg hs, hb, if_true]
      split_ifs <;> simp
  · intro h0
    have hb : (at_abi st.zygote_start_counts (w.str_ends (get_exe w pid).2 "64") != 0)
        = false := by
      simp [h0]
    have h5 : ¬ at_abi st.zygote_start_counts (w.str_ends (get_exe w pid).2 "64") + 1 ≥ 5 := by
      omega
    unfold setup_files
    simp only [hexe, Bool.not_true, Bool.false_eq_true, if_false, at_abi_set_abi]
    by_cases hs : zygote_started st = 0
    · simp only [if_pos hs, hb, Bool.false_eq_true, if_false, if_neg h5]
      simp
    · simp only [if_neg hs, hb, Bool.false_eq_true, if_false, if_neg h5]
      simp
  · intro hlt
    have h5 : ¬ at_abi st.zygote_start_counts (w.str_ends (get_exe w pid).2 "64") + 1 ≥ 5 := by
      omega
    unfold setup_files
    simp only [hexe, Bool.not_true, Bool.false_eq_true, if_false, at_abi_set_abi]
    by_cases hs : zygote_started st = 0
    · simp only [if_pos hs, if_neg h5]
      split_ifs <;> rfl
    · simp only [if_neg hs, if_neg h5]
      split_ifs <;> rfl

/-- C20 at a second start of the 64-bit ABI with sockets 5 and 6 cached. -/
theorem setup_files_teardown_witness :
    (setup_files (zworld true 10 0) 7 1 ⟨(5, 6), ⟨0, 0⟩, (0, 1)⟩).1.zygiskd_sockets = (-1, -1) ∧
    (setup_files (zworld true 10 0) 7 1 ⟨(5, 6), ⟨0, 0⟩, (0, 1)⟩).2.take 2
      = [ZEff.close 5, ZEff.close 6] :=
  (setup_files_teardown (zworld true 10 0) 7 1 ⟨(5, 6), ⟨0, 0⟩, (0, 1)⟩ (by decide)).1
    (by decide)

/-- C20, as stated, fails: the 32-bit ABI has started once and sockets 5 and 6
are cached; the first start of the 64-bit ABI, which is not the first recorded
initialization, increments its counter but closes nothing and leaves both
sockets cached. -/
theorem other_abi_start_keeps_sockets :
    zygote_started ⟨(5, 6), ⟨0, 0⟩, (1, 0)⟩ ≠ 0 ∧
    setup_files (zworld true 10 0) 7 1 ⟨(5, 6), ⟨0, 0⟩, (1, 0)⟩
      = (⟨(5, 6), ⟨0, 0⟩, (1, 1)⟩,
         [ZEff.write_int 7 0, ZEff.send_fd 7 11,
          ZEff.cp_afc "/system/bin/app_process64"
            "/sbin/.magisk/zygisk/zygisk.app_process64.1.so",
          ZEff.cp_afc "/system/bin/app_process64"
            "/sbin/.magisk/zygisk/zygisk.app_process64.2.so",
          ZEff.write_string 7 "/sbin"]) := by
  decide

/-- The counters that a call of `setup_files` leaves, case by case. -/
theorem setup_files_counts (w : ZygiskWorld) (client pid : Int) (st : ZygiskState) :
    (setup_files w client pid st).1.zygote_start_counts
      = if (get_exe w pid).1 = true then
          (if at_abi st.zygote_start_counts (w.str_ends (get_exe w pid).2 "64") + 1 ≥ 5 then
            (if w.now.tv_sec
                - (if zygote_started st = 0 then w.now else st.last_zygote_start).tv_sec > 60
              then (1, 1) else (999, 999))
          else set_abi st.zygote_start_counts (w.str_ends (get_exe w pid).2 "64")
            (at_abi st.zygote_start_counts (w.str_ends (get_exe w pid).2 "64") + 1))
        else st.zygote_start_counts := by
  cases hexe : (get_exe w pid).1 with
  | false =>
    rw [setup_files_no_exe w client pid st hexe]
    simp
  | true =>
    unfold setup_files
    simp only [hexe, Bool.not_true, Bool.false_eq_true, if_false, at_abi_set_abi, if_true]
    by_cases hs : zygote_started st = 0
    · simp only [if_pos hs]
      split_ifs <;> rfl
    · simp only [if_neg hs]
      split_ifs <;> rfl

/-- A call whose caller was resolved answers 1 only on the branch that pins
the counters. -/
theorem setup_files_answer_one (w : ZygiskWorld) (client pid : Int) (st : ZygiskState)
    (hexe : (get_exe w pid).1 = true)
    (h : ZEff.write_int client 1 ∈ (setup_files w client pid st).2) :
    (setup_files w client pid st).1.zygote_start_counts = (999, 999) := by
  unfold setup_files at h ⊢
  simp only [hexe, Bool.not_true, Bool.false_eq_true, if_false, at_abi_set_abi] at h ⊢
  by_cases hs : zygote_started st = 0
  · simp only [if_pos hs] at h ⊢
    split_ifs at h ⊢ <;> first | rfl | simp at h
  · simp only [if_neg hs] at h ⊢
    split_ifs at h ⊢ <;> first | rfl | simp at h

/-- The set {0, 1, 2, 3, 4, 999} is kept by a call, for both counters. -/
theorem setup_files_counts_ok (w : ZygiskWorld) (client pid : Int) (st : ZygiskState)
    (h1 : st.zygote_start_counts.1 ∈ ([0, 1, 2, 3, 4, 999] : List Int))
    (h2 : st.zygote_start_counts.2 ∈ ([0, 1, 2, 3, 4, 999] : List Int)) :
    (setup_files w client pid st).1.zygote_start_counts.1 ∈ ([0, 1, 2, 3, 4, 999] : List Int) ∧
    (setup_files w client pid st).1.zygote_start_counts.2 ∈ ([0, 1, 2, 3, 4, 999] : List Int) := by
  rw [setup_files_counts]
  by_cases ha : (get_exe w pid).1 = true
  · rw [if_pos ha]
    by_cases hb : at_abi st.zygote_start_counts (w.str_ends (get_exe w pid).2 "64") + 1 ≥ 5
    · rw [if_pos hb]
      by_cases hc : w.now.tv_sec
          - (if zygote_started st = 0 then w.now else st.last_zygote_start).tv_sec > 60
      · rw [if_pos hc]; decide
      · rw [if_neg hc]; decide
    · rw [if_neg hb]
      simp only [List.mem_cons, List.mem_singleton, List.not_mem_nil, or_false] at h1 h2 ⊢
      cases hx : w.str_ends (get_exe w pid).2 "64" with
      | true =>
        rw [hx] at hb
        simp only [at_abi, set_abi, if_true] at hb ⊢
        refine ⟨h1, ?_⟩
        omega
      | false =>
        rw [hx] at hb
        simp only [at_abi, set_abi, Bool.false_eq_true, if_false] at hb ⊢
        refine ⟨?_, h2⟩
        omega
  · rw [if_neg ha]
    exact ⟨h1, h2⟩

/-- The set {0, 1, 2, 3, 4, 999} is kept by every run of calls. -/
theorem setup_files_calls_counts_ok (calls : List (ZygiskWorld × Int × Int)) :
    ∀ st : ZygiskState,
      st.zygote_start_counts.1 ∈ ([0, 1, 2, 3, 4, 999] : List Int) →
      st.zygote_start_counts.2 ∈ ([0, 1, 2, 3, 4, 999] : List Int) →
      (setup_files_calls calls st).1.zygote_start_counts.1 ∈ ([0, 1, 2, 3, 4, 999] : List Int) ∧
      (setup_files_calls calls st).1.zygote_start_counts.2
        ∈ ([0, 1, 2, 3, 4, 999] : List Int) := by
  induction calls with
  | nil =>
    intro st h1 h2
    exact ⟨h1, h2⟩
  | cons c rest ih =>
    intro st h1 h2
    obtain ⟨w, client, pid⟩ := c
    obtain ⟨k1, k2⟩ := setup_files_counts_ok w client pid st h1 h2
    exact ih (setup_files w client pid st).1 k1 k2

/-- C22, as amended: from counters (0, 0), after every run of `setup_files`
calls (any caller, any clock reading, resolved or not) both counters are in
{0, 1, 2, 3, 4, 999}, hence at most 999 and the `++` of the next call cannot
overflow; a single call keeps that set from any state, whatever the cached
sockets and the recorded start.  A call that answers 1 to a caller whose
executable was resolved leaves both counters at 999, whereas a caller whose
executable cannot be resolved is answered 1 with the state unchanged.  From
counters (999, 999) a call leaves them at 999 unless the caller is resolved
and the whole seconds elapsed since the recorded start exceed 60, in which
case it sets both to 1. -/
theorem start_counters_invariant :
    (∀ (calls : List (ZygiskWorld × Int × Int)) (st : ZygiskState),
      st.zygote_start_counts = (0, 0) →
      (setup_files_calls calls st).1.zygote_start_counts.1 ∈ ([0, 1, 2, 3, 4, 999] : List Int) ∧
      (setup_files_calls calls st).1.zygote_start_counts.2 ∈ ([0, 1, 2, 3, 4, 999] : List Int) ∧
      (setup_files_calls calls st).1.zygote_start_counts.1 + 1 < 2147483648 ∧
      (setup_files_calls calls st).1.zygote_start_counts.2 + 1 < 2147483648) ∧
    (∀ (w : ZygiskWorld) (client pid : Int) (st : ZygiskState),
      st.zygote_start_counts.1 ∈ ([0, 1, 2, 3, 4, 999] : List Int) →
      st.zygote_start_counts.2 ∈ ([0, 1, 2, 3, 4, 999] : List Int) →
      (setup_files w client pid st).1.zygote_start_counts.1 ∈ ([0, 1, 2, 3, 4, 999] : List Int) ∧
      (setup_files w client pid st).1.zygote_start_counts.2
        ∈ ([0, 1, 2, 3, 4, 999] : List Int)) ∧
    (∀ (w : ZygiskWorld) (client pid : Int) (st : ZygiskState),
      (get_exe w pid).1 = true →
      ZEff.write_int client 1 ∈ (setup_files w client pid st).2 →
      (setup_files w client pid st).1.zygote_start_counts = (999, 999)) ∧
    (∀ (w : ZygiskWorld) (client pid : Int) (st : ZygiskState),
      (get_exe w pid).1 = false →
      setup_files w client pid st = (st, [ZEff.write_int client 1])) ∧
    (∀ (w : ZygiskWorld) (client pid : Int) (st : ZygiskState),
      st.zygote_start_counts = (999, 999) →
      (setup_files w client pid st).1.zygote_start_counts
        = if (get_exe w pid).1 = true ∧ w.now.tv_sec - st.last_zygote_start.tv_sec > 60
          then (1, 1) else (999, 999)) := by
  refine ⟨?_, setup_files_counts_ok, ?_, setup_files_no_exe, ?_⟩
  · intro calls st h0
    obtain ⟨k1, k2⟩ := setup_files_calls_counts_ok calls st (by rw [h0]; decide)
      (by rw [h0]; decide)
    refine ⟨k1, k2, ?_, ?_⟩
    · simp only [List.mem_cons, List.mem_singleton, List.not_mem_nil, or_false] at k1
      omega
    · simp only [List.mem_cons, List.mem_singleton, List.not_mem_nil, or_false] at k2
      omega
  · intro w client pid st hexe h
    exact setup_files_answer_one w client pid st hexe h
  · intro w client pid st hc
    have hs : zygote_started st ≠ 0 := by
      unfold zygote_started; rw [hc]; decide
    have h5 : at_abi st.zygote_start_counts (w.str_ends (get_exe w pid).2 "64") + 1 ≥ 5 := by
      rw [hc]; unfold at_abi; split <;> decide
    rw [setup_files_counts, if_neg hs, if_pos h5]
    by_cases hexe : (get_exe w pid).1 = true
    · by_cases hw : w.now.tv_sec - st.last_zygote_start.tv_sec > 60
      · simp [hexe, hw]
      · simp [hexe, hw]
    · simp [hexe, hc]

/-- C22 at six starts of alternating ABIs, the last one 100 s after the first. -/
theorem start_counters_invariant_witness :
    (setup_files_calls [(zworld true 0 0, 7, 1), (zworld false 1 0, 7, 2),
        (zworld true 2 0, 7, 1), (zworld false 3 0, 7, 2), (zworld true 4 0, 7, 1),
        (zworld false 100 0, 7, 2)] initZygisk).1.zygote_start_counts.1
      ∈ ([0, 1, 2, 3, 4, 999] : List Int) :=
  (start_counters_invariant.1 [(zworld true 0 0, 7, 1), (zworld false 1 0, 7, 2),
    (zworld true 2 0, 7, 1), (zworld false 3 0, 7, 2), (zworld true 4 0, 7, 1),
    (zworld false 100 0, 7, 2)] initZygisk rfl).1

/-- C22, as stated, fails: at daemon start a caller whose executable cannot
be resolved is refused, the client being answered 1 and sent nothing else, and
both counters are 0 afterwards, not 999. -/
theorem unresolved_refusal_keeps_counters :
    (get_exe (unresolvedWorld 0) 1).1 = false ∧
    setup_files (unresolvedWorld 0) 7 1 initZygisk = (initZygisk, [ZEff.write_int 7 1]) ∧
    (setup_files (unresolvedWorld 0) 7 1 initZygisk).1.zygote_start_counts = (0, 0) ∧
    (setup_files (unresolvedWorld 0) 7 1 initZygisk).1.zygote_start_counts ≠ (999, 999) := by
  decide

/-! ## Module bitset loop -/

/-- The inner loop does nothing once every module has been visited. -/
theorem inner_loop_done (slot_size size i l fuel j id : Nat) (h : size ≤ id) :
    inner_loop slot_size size i l fuel j id = LoopResult.ok (id, []) := by
  have hn : ¬ id < size := by omega
  cases fuel with
  | zero => simp only [inner_loop, if_neg hn]
  | succ f => simp only [inner_loop, if_neg hn]

/-- The outer loop marks nothing once every module has been visited. -/
theorem slots_loop_done (slot_size size : Nat) (slots : Int) (read : Nat → Nat) :
    ∀ (fuel i id : Nat), size ≤ id → slots ≤ (i : Int) + fuel →
      slots_loop slot_size size slots read fuel i id = LoopResult.ok [] := by
  intro fuel
  induction fuel with
  | zero =>
    intro i id _ hf
    have hn : ¬ (i : Int) < slots := by omega
    simp only [slots_loop, if_neg hn]
  | succ f ih =>
    intro i id hid hf
    by_cases hi : (i : Int) < slots
    · simp only [slots_loop, if_pos hi, inner_loop_done slot_size size i (read i) size 0 id hid]
      rw [ih (i + 1) id hid (by push_cast; omega)]
      rfl
    · simp only [slots_loop, if_neg hi]

/-- The inner loop entered with `j = id` when all modules fit in one slot:
each module is tested against its own bit of the slot. -/
theorem inner_loop_fits (slot_size size i l : Nat) (hfit : size ≤ slot_size) :
    ∀ (fuel id : Nat), id ≤ size → size - id ≤ fuel →
      inner_loop slot_size size i l fuel id id
        = LoopResult.ok (size, (List.range' id (size - id)).filter (fun x => !l.testBit x)) := by
  intro fuel
  induction fuel with
  | zero =>
    intro id hid hf
    have he : id = size := by omega
    subst he
    simp [inner_loop]
  | succ f ih =>
    intro id hid hf
    by_cases hlt : id < size
    · have hbit : slot_bit slot_size l id = some (l.testBit id) := by
        unfold slot_bit
        rw [if_pos (by omega)]
      have hr : size - id = (size - (id + 1)) + 1 := by omega
      simp only [inner_loop, if_pos hlt, hbit, ih (id + 1) (by omega) (by omega)]
      rw [hr, List.range'_succ]
      cases hb : l.testBit id <;> simp [List.filter_cons, hb]
    · have he : id = size := by omega
      subst he
      simp [inner_loop]

/-- The inner loop entered with `j = id` when there are more modules than
bits in a slot: it reaches the bit index `slot_size`. -/
theorem inner_loop_overrun (slot_size size i l : Nat) (hover : slot_size < size) :
    ∀ (fuel id : Nat), id ≤ slot_size → size - id ≤ fuel →
      inner_loop slot_size size i l fuel id id
        = LoopResult.stop (LoopStop.bit_out_of_range i slot_size slot_size) := by
  intro fuel
  induction fuel with
  | zero =>
    intro id hid hf
    omega
  | succ f ih =>
    intro id hid hf
    have hlt : id < size := by omega
    by_cases hj : id < slot_size
    · have hbit : slot_bit slot_size l id = some (l.testBit id) := by
        unfold slot_bit
        rw [if_pos hj]
      simp only [inner_loop, if_pos hlt, hbit, ih (id + 1) (by omega) (by omega)]
    · have he : id = slot_size := by omega
      subst he
      have hbit : slot_bit id l id = none := by
        unfold slot_bit
        rw [if_neg hj]
      simp only [inner_loop, if_pos hlt, hbit]

/-- With at least one slot sent and no more modules than bits in a slot, the
loop marks exactly the modules whose bit of slot 0 is clear. -/
theorem get_process_info_slots_fits (slot_size size : Nat) (slots : Int) (read : Nat → Nat)
    (hs : 1 ≤ slots) (hfit : size ≤ slot_size) :
    get_process_info_slots slot_size size slots read
      = LoopResult.ok ((List.range size).filter (fun id => !(read 0).testBit id)) := by
  unfold get_process_info_slots
  obtain ⟨n, hn⟩ : ∃ n, slots.toNat = n + 1 := ⟨slots.toNat - 1, by omega⟩
  have h0 : ((0 : Nat) : Int) < slots := by omega
  rw [hn]
  simp only [slots_loop, if_pos h0,
    inner_loop_fits slot_size size 0 (read 0) hfit size 0 (by omega) (by omega)]
  rw [slots_loop_done slot_size size slots read n 1 size (le_refl _) (by omega)]
  simp [List.range_eq_range']

/-- With at least one slot sent and more modules than bits in a slot, the
loop evaluates `bits[slot_size]` on slot 0. -/
theorem get_process_info_slots_overrun (slot_size size : Nat) (slots : Int)
    (read : Nat → Nat) (hs : 1 ≤ slots) (hover : slot_size < size) :
    get_process_info_slots slot_size size slots read
      = LoopResult.stop (LoopStop.bit_out_of_range 0 slot_size slot_size) := by
  unfold get_process_info_slots
  obtain ⟨n, hn⟩ : ∃ n, slots.toNat = n + 1 := ⟨slots.toNat - 1, by omega⟩
  have h0 : ((0 : Nat) : Int) < slots := by omega
  rw [hn]
  simp only [slots_loop, if_pos h0,
    inner_loop_overrun slot_size size 0 (read 0) hover size 0 (by omega) (by omega)]

/-- C21 evaluated: with 64-bit slots, 65 modules and two slots sent, the
inner loop runs on slot 0 until the bit index is 64, the width of the slot,
for module 64, which the claim tests against bit 0 of slot 1; the same happens
with 32-bit slots and 33 modules, and in general whenever one slot or more is
sent and the modules outnumber the bits of a slot. -/
theorem bit_index_reaches_width :
    get_process_info_slots 64 65 2 (fun _ => 18446744073709551615)
      = LoopResult.stop (LoopStop.bit_out_of_range 0 64 64) ∧
    get_process_info_slots 32 33 2 (fun i => if i = 0 then 4294967295 else 0)
      = LoopResult.stop (LoopStop.bit_out_of_range 0 32 32) ∧
    (∀ (slot_size extra more : Nat) (read : Nat → Nat),
      get_process_info_slots slot_size (slot_size + 1 + extra) (1 + (more : Int)) read
        = LoopResult.stop (LoopStop.bit_out_of_range 0 slot_size slot_size)) := by
  refine ⟨by decide, by decide, ?_⟩
  intro slot_size extra more read
  exact get_process_info_slots_overrun slot_size (slot_size + 1 + extra) (1 + (more : Int))
    read (by omega) (by omega)

end Daemon
